import Mathlib

/-!
Shallow embedding of the Asset-Assistant repository (a Python batch script that
sorts media poster images into library folders) together with proofs about the
claims of its specification.

Conventions of the embedding:
* Python strings are Lean `String`s; the handful of regular expressions the
  code uses are implemented as dedicated scanning functions with the exact
  semantics of the pattern on the inputs the program feeds them (ASCII).
* The filesystem is a passive structure `FS` of listings and existence tests;
  side effects (copies, moves, renames, mkdir) are returned as a trace of
  `FileOp`s in program order.  `os.path.join a b` is modelled as `a ++ "/" ++ b`.
* A Python call either returns a value, calls `sys.exit`, or raises an
  uncaught exception; `PyResult` has one constructor for each.
* Exceptions that the source catches with `except ...` clauses are modelled by
  `PyExc` (subclasses of `Exception`; exceptions outside that hierarchy, such
  as KeyboardInterrupt, are outside the model, as is concurrent mutation of
  the filesystem during a run).
-/

/-- Result of running a Python function: a normal return value, a `sys.exit`,
or an uncaught exception (identified by the exception class name). -/
inductive PyResult where
  | ok (value : String)
  | exited (code : Nat)
  | raised (excName : String)
deriving DecidableEq, Repr

/-- A filesystem side effect, recorded in program order.  For copy / move /
rename the destination is kept as (directory, entry name); the path actually
written is `destDir ++ "/" ++ destName`. -/
inductive FileOp where
  | copyTo (src destDir destName : String)
  | moveTo (src destDir destName : String)
  | mkdir (path : String)
  | renameTo (src destDir destName : String)
  | delete (path : String)
  | copy2 (src dest : String)
deriving DecidableEq, Repr

/-- Passive filesystem: directory listings, existence tests, image headers
(`none` models a file `PIL.Image.open` fails on), and failure injection for
`shutil.copy` / `os.rename` (`true` means the OS call raises). -/
structure FS where
  listdir : String → List String
  pathExists : String → Bool
  imageSize : String → Option (Nat × Nat)
  copyFails : String → String → Bool
  renameFails : String → String → Bool

/-- Model of `os.path.join` for the relative joins the program performs. -/
def pjoin (a b : String) : String := a ++ "/" ++ b

/- ## Python string primitives -/

/-- The apostrophe character (written via its code point to keep source
files free of quote-escaping). -/
def squote : Char := Char.ofNat 39

/-- Python `\s` on the ASCII range: space, tab, newline, CR, VT, FF. -/
def isSpaceCh (c : Char) : Bool :=
  c == ' ' || c == '\t' || c == '\n' || c == '\r' || c == Char.ofNat 11 || c == Char.ofNat 12

/-- Python `\w` on the ASCII range: letters, digits, underscore. -/
def isWordCh (c : Char) : Bool := c.isAlphanum || c == '_'

/-- Python `str.lower()` (ASCII). -/
def pyLower (s : String) : String := String.mk (s.toList.map Char.toLower)

/-- List-level prefix test used by the string helpers below. -/
def listIsPre : List Char → List Char → Bool
  | [], _ => true
  | _ :: _, [] => false
  | a :: as, b :: bs => a == b && listIsPre as bs

/-- Substring test on char lists: Python `pat in text`. -/
def listHasSub (pat : List Char) : List Char → Bool
  | [] => listIsPre pat []
  | c :: rest => listIsPre pat (c :: rest) || listHasSub pat rest

/-- Python `needle in hay` for strings. -/
def pyIn (needle hay : String) : Bool := listHasSub needle.toList hay.toList

/-- Python `s.startswith(p)`. -/
def pyStartsWith (p s : String) : Bool := listIsPre p.toList s.toList

/-- Python `s.endswith(p)`. -/
def pyEndsWith (p s : String) : Bool := listIsPre p.toList.reverse s.toList.reverse

/-- Python `str.strip()` (whitespace on both ends). -/
def pyStrip (s : String) : String :=
  String.mk (((s.toList.dropWhile isSpaceCh).reverse.dropWhile isSpaceCh).reverse)

/-- First field of Python `s.split(c)`: the characters before the first
occurrence of `c`. -/
def takeUntilChar (c : Char) (s : String) : String :=
  String.mk (s.toList.takeWhile (· != c))

/-- Replace every occurrence of the character `c` by `d`. -/
def replaceChar (c d : Char) (s : String) : String :=
  String.mk (s.toList.map (fun x => if x == c then d else x))

/-- Delete every occurrence of the character `c`. -/
def removeChar (c : Char) (s : String) : String :=
  String.mk (s.toList.filter (· != c))

/-- Helper for `splitExt`: split a char list at its last dot. -/
def lastDotSplit : List Char → Option (List Char × List Char)
  | [] => none
  | c :: rest =>
    match lastDotSplit rest with
    | some (a, b) => some (c :: a, b)
    | none => if c == '.' then some ([], rest) else none

/-- Model of `os.path.splitext` on a bare filename: split at the last dot,
ignoring a run of leading dots. -/
def splitExt (s : String) : String × String :=
  let cs := s.toList
  let lead := cs.takeWhile (· == '.')
  let rest := cs.dropWhile (· == '.')
  match lastDotSplit rest with
  | none => (s, "")
  | some (a, b) => (String.mk (lead ++ a), String.mk ('.' :: b))

/-- Python `str.zfill` for the unsigned digit strings the program feeds it. -/
def zfill (w : Nat) (s : String) : String :=
  if s.length ≥ w then s else String.mk (List.replicate (w - s.length) '0') ++ s

/-- Numeric value of a list of decimal digits. -/
def digitsToNat : Nat → List Char → Nat
  | acc, [] => acc
  | acc, c :: rest => digitsToNat (acc * 10 + (c.toNat - 48)) rest

/-- Integer value of a decimal digit string (the program only converts the
four-digit year groups captured by its regular expressions). -/
def pyInt (s : String) : Int := (digitsToNat 0 s.toList : Int)

/-- Collapse of `re.sub(r'\s+', ' ', s)`: every maximal whitespace run
becomes a single space.  The boolean tracks whether the previous character
belonged to a run already replaced. -/
def collapseSpacesAux : Bool → List Char → List Char
  | _, [] => []
  | prevSpace, c :: rest =>
    if isSpaceCh c then
      if prevSpace then collapseSpacesAux true rest
      else ' ' :: collapseSpacesAux true rest
    else c :: collapseSpacesAux false rest

/-- Python `re.sub(r'\s+', ' ', s)`. -/
def collapseSpaces (s : String) : String := String.mk (collapseSpacesAux false s.toList)

/-- Python `re.sub(r'\s+', '', s)`. -/
def removeSpaces (s : String) : String := String.mk (s.toList.filter (fun c => !isSpaceCh c))

/-- Python `re.sub(r'[^\w\s]', '', s)`. -/
def subNonWordEmpty (s : String) : String :=
  String.mk (s.toList.filter (fun c => isWordCh c || isSpaceCh c))

/-- Python `re.sub(r'[^\w\s]', ' ', s)`. -/
def subNonWordSpace (s : String) : String :=
  String.mk (s.toList.map (fun c => if isWordCh c || isSpaceCh c then c else ' '))

/-- Generic fuelled `re.sub` driver: `step` reports, at the current position,
the replacement text and the remainder after the (non-empty) match; on no
match the scan advances one character.  Fuel is the input length, enough
because every match consumes at least one character. -/
def subFuel (step : List Char → Option (List Char × List Char)) : Nat → List Char → List Char
  | 0, l => l
  | _ + 1, [] => []
  | fuel + 1, c :: rest =>
    match step (c :: rest) with
    | some (rep, after) => rep ++ subFuel step fuel after
    | none => c :: subFuel step fuel rest

/-- Match step for `re.sub(r'-\s+', ' - ', s)`. -/
def stepDashSp : List Char → Option (List Char × List Char)
  | '-' :: rest =>
    match rest with
    | c :: _ => if isSpaceCh c then some ([' ', '-', ' '], rest.dropWhile isSpaceCh) else none
    | [] => none
  | _ => none

/-- Match step for `re.sub(r'\s+-', ' - ', s)`. -/
def stepSpDash (l : List Char) : Option (List Char × List Char) :=
  match l with
  | c :: _ =>
    if isSpaceCh c then
      match l.dropWhile isSpaceCh with
      | '-' :: after => some ([' ', '-', ' '], after)
      | _ => none
    else none
  | [] => none

/-- Match step for `re.sub(r'-', ' - ', s)`. -/
def stepDash : List Char → Option (List Char × List Char)
  | '-' :: rest => some ([' ', '-', ' '], rest)
  | _ => none

/-- Match step for `re.sub(r'\s*-\s*', ' ', s)`: optional spaces, a dash,
optional spaces, replaced by a single space. -/
def stepAroundDash (l : List Char) : Option (List Char × List Char) :=
  match l.dropWhile isSpaceCh with
  | '-' :: after => some ([' '], after.dropWhile isSpaceCh)
  | _ =>
    match l with
    | '-' :: after => some ([' '], after.dropWhile isSpaceCh)
    | _ => none

/-- Python `re.sub(r'-\s+', ' - ', s)`. -/
def subDashSp (s : String) : String := String.mk (subFuel stepDashSp s.length s.toList)

/-- Python `re.sub(r'\s+-', ' - ', s)`. -/
def subSpDash (s : String) : String := String.mk (subFuel stepSpDash s.length s.toList)

/-- Python `re.sub(r'-', ' - ', s)`. -/
def subDashSpread (s : String) : String := String.mk (subFuel stepDash s.length s.toList)

/-- Python `re.sub(r'\s*-\s*', ' ', s)`. -/
def subAroundDash (s : String) : String := String.mk (subFuel stepAroundDash s.length s.toList)

/-- Fuelled replacement of a (non-empty) literal substring, Python
`s.replace(pat, rep)`: leftmost, non-overlapping, all occurrences. -/
def replaceAux (pat rep : List Char) : Nat → List Char → List Char
  | 0, l => l
  | _ + 1, [] => []
  | fuel + 1, c :: rest =>
    if pat ≠ [] && listIsPre pat (c :: rest) then
      rep ++ replaceAux pat rep fuel (rest.drop (pat.length - 1))
    else c :: replaceAux pat rep fuel rest

/-- Python `s.replace(pat, rep)` for non-empty `pat`. -/
def pyReplace (pat rep s : String) : String :=
  String.mk (replaceAux pat.toList rep.toList s.length s.toList)

/- ## Regular-expression models

Each Python pattern used by the repository is realised as a scanning function
with the semantics of `re.search` / `re.match` (leftmost match; greedy or lazy
quantifiers as the pattern dictates; `.` never matches a newline). -/

/-- Case-insensitive literal prefix: if the lowered text starts with `pat`
(itself lowercase), return the remainder. -/
def dropLowerPre : List Char → List Char → Option (List Char)
  | [], rest => some rest
  | _ :: _, [] => none
  | p :: ps, c :: cs => if c.toLower == p then dropLowerPre ps cs else none

/-- Trigger of `\s\((\d{4})\)` at the current position: a whitespace char,
an opening parenthesis, four digits, a closing parenthesis.  Returns the
four digit characters. -/
def yearTrigger : List Char → Option (List Char)
  | c0 :: '(' :: d1 :: d2 :: d3 :: d4 :: ')' :: _ =>
    if isSpaceCh c0 && d1.isDigit && d2.isDigit && d3.isDigit && d4.isDigit then
      some [d1, d2, d3, d4]
    else none
  | _ => none

/-- Scan for `(.+)\s\((\d{4})\)` anchored at the start (`re.match`): the
greedy `.+` selects the last position `j ≥ 1` whose prefix is newline-free
and where `yearTrigger` fires; the scan stops once a newline would enter the
prefix. -/
def mediaScan : List Char → Nat → Option (Nat × List Char) → Option (Nat × List Char)
  | [], _, best => best
  | c :: rest, j, best =>
    let best' := if j ≥ 1 then
        match yearTrigger (c :: rest) with
        | some y => some (j, y)
        | none => best
      else best
    if c == '\n' then best' else mediaScan rest (j + 1) best'

/-- Python `re.match(r'(.+)\s\((\d{4})\)', s)`: group 1 (the title) and
group 2 (the year). -/
def mediaMatchAt (s : String) : Option (String × String) :=
  (mediaScan s.toList 0 none).map (fun p => (String.mk (s.toList.take p.1), String.mk p.2))

/-- Python `re.search(r'(.+)\s\((\d{4})\)', s)`: leftmost start position. -/
def mediaSearchList : List Char → Option (String × String)
  | [] => none
  | c :: rest =>
    match (mediaScan (c :: rest) 0 none).map
        (fun p => (String.mk ((c :: rest).take p.1), String.mk p.2)) with
    | some r => some r
    | none => mediaSearchList rest

/-- Python `re.search(r'(.+)\s\((\d{4})\)', s, re.IGNORECASE)` (the flag is
irrelevant: the pattern has no cased literal). -/
def mediaSearch (s : String) : Option (String × String) := mediaSearchList s.toList

/-- Trigger of `\s*Season\s+(\d+)` (case-insensitive) at the current
position; returns the digit group. -/
def seasonTriggerAt (cs : List Char) : Option String :=
  match dropLowerPre "season".toList (cs.dropWhile isSpaceCh) with
  | none => none
  | some rest =>
    match rest with
    | c :: _ =>
      if isSpaceCh c then
        let ds := (rest.dropWhile isSpaceCh).takeWhile Char.isDigit
        if ds = [] then none else some (String.mk ds)
      else none
    | [] => none

/-- Positions after the anchor `(?:^|\s|-)` other than the string start:
every character in `\s` or a dash opens a candidate position. -/
def seasonSearchAux : List Char → Option String
  | [] => none
  | c :: rest =>
    if isSpaceCh c || c == '-' then
      match seasonTriggerAt rest with
      | some d => some d
      | none => seasonSearchAux rest
    else seasonSearchAux rest

/-- Python `re.search(r'(?:^|\s|-)\s*Season\s+(\d+)', s, re.IGNORECASE)`:
group 1, the season number string. -/
def seasonSearch (s : String) : Option String :=
  match seasonTriggerAt s.toList with
  | some d => some d
  | none => seasonSearchAux s.toList

/-- Trigger of `S(\d+)[\s\.]?E(\d+)` (case-insensitive) at the current
position; returns the two digit groups. -/
def epTrigger : List Char → Option (String × String)
  | [] => none
  | c :: rest =>
    if c == 'S' || c == 's' then
      let ds := rest.takeWhile Char.isDigit
      if ds = [] then none
      else
        let cont := fun (l : List Char) =>
          match l with
          | e :: rest3 =>
            if e == 'E' || e == 'e' then
              let es := rest3.takeWhile Char.isDigit
              if es = [] then none else some (String.mk ds, String.mk es)
            else none
          | [] => none
        match rest.dropWhile Char.isDigit with
        | [] => none
        | x :: rest2 =>
          match cont (x :: rest2) with
          | some r => some r
          | none => if isSpaceCh x || x == '.' then cont rest2 else none
    else none

/-- Python `re.search(r'S(\d+)[\s\.]?E(\d+)', s, re.IGNORECASE)`: leftmost
occurrence, groups 1 and 2. -/
def epSearchList : List Char → Option (String × String)
  | [] => none
  | c :: rest =>
    match epTrigger (c :: rest) with
    | some r => some r
    | none => epSearchList rest

/-- Search form of the episode pattern. -/
def epSearch (s : String) : Option (String × String) := epSearchList s.toList

/-- Scan for `.*S(\d+)[\s\.]?E(\d+)` anchored at the start (`re.match`):
the greedy `.*` selects the last trigger position whose prefix is
newline-free. -/
def epLastScan : List Char → Option (String × String) → Option (String × String)
  | [], best => best
  | c :: rest, best =>
    let best' := match epTrigger (c :: rest) with
      | some r => some r
      | none => best
    if c == '\n' then best' else epLastScan rest best'

/-- Python `re.match(r'.*S(\d+)[\s\.]?E(\d+)', s, re.IGNORECASE)`. -/
def epLast (s : String) : Option (String × String) := epLastScan s.toList none

/-- Python `re.search(r'Specials', s, re.IGNORECASE)` as a boolean. -/
def specialsFound (s : String) : Bool := pyIn "specials" (pyLower s)

/-- Tail `(?:\s*\.|\s*$)` of the collection pattern: from the current
position, optional whitespace followed by a dot or the end of the string. -/
def collectionTailOk (l : List Char) : Bool :=
  match l.dropWhile isSpaceCh with
  | [] => true
  | c :: _ => c == '.'

/-- Head `(.+?)(?:\s+Collection|\s*collection)` of the collection pattern
(under IGNORECASE the two alternatives merge into `\s*collection`), looking
left from the occurrence of the literal: the reversed prefix must offer a
non-newline character for `.+?` after skipping optional whitespace. -/
def collectionBeforeOk : List Char → Bool
  | [] => false
  | c :: rest => c != '\n' || (isSpaceCh c && collectionBeforeOk rest)

/-- Scan of `(.+?)(?:\s+Collection|\s*collection)(?:\s*\.|\s*$)` used as a
boolean (the program only tests and logs the match). -/
def collectionScan : List Char → List Char → Bool
  | _, [] => false
  | revPre, c :: rest =>
    (match dropLowerPre "collection".toList (c :: rest) with
     | some after => collectionBeforeOk revPre && collectionTailOk after
     | none => false)
    || collectionScan (c :: revPre) rest

/-- Python `re.search` of the collection pattern as a boolean. -/
def collectionFound (s : String) : Bool := collectionScan [] s.toList

/-- Trigger of the alternation `(?:-|S\d+|\()` (plus optionally `$`),
case-insensitive, used by the lazy show-title patterns.  The three flags
select which alternatives the concrete pattern contains. -/
def titleTrigger (dash paren atEnd : Bool) : List Char → Bool
  | [] => atEnd
  | c :: rest =>
    (dash && c == '-') || (paren && c == '(') ||
    ((c == 'S' || c == 's') &&
      (match rest with
       | d :: _ => d.isDigit
       | [] => false))

/-- After the lazy group: `\s*` then the trigger (the trigger characters are
never whitespace, so skipping the maximal run is exact). -/
def spacesThenTrigger (dash paren atEnd : Bool) (l : List Char) : Bool :=
  titleTrigger dash paren atEnd (l.dropWhile isSpaceCh)

/-- Lazy scan for `(.+?)\s*(?: ... )` anchored at the start: the minimal
non-empty newline-free prefix after which the trigger can fire.  Returns
group 1. -/
def lazyTitleAux (dash paren atEnd : Bool) : List Char → List Char → Option String
  | _, [] => none
  | accRev, c :: rest =>
    if c == '\n' then none
    else if spacesThenTrigger dash paren atEnd rest then some (String.mk (c :: accRev).reverse)
    else lazyTitleAux dash paren atEnd (c :: accRev) rest

/-- Python `re.match(r'(.+?)\s*(?:-|S\d+|\()', s, re.IGNORECASE)`
(media_matcher.find_best_show_directory). -/
def lazyTitleDashParen (s : String) : Option String :=
  lazyTitleAux true true false [] s.toList

/-- Python `re.match(r'(.+?)\s*(?:-|S\d+)', s, re.IGNORECASE)`
(script plex episode branch). -/
def lazyTitleDash (s : String) : Option String :=
  lazyTitleAux true false false [] s.toList

/-- Python `re.match(r'(.+?)\s*(?:\(|S\d+|$)', s, re.IGNORECASE)`
(script kometa episode branch). -/
def lazyTitleParenEnd (s : String) : Option String :=
  lazyTitleAux false true true [] s.toList

/-- Python `re.search(r'\((\d{4})\)', s)`: first parenthesised four-digit
year. -/
def yearSearchList : List Char → Option String
  | [] => none
  | '(' :: d1 :: d2 :: d3 :: d4 :: ')' :: _ =>
    if d1.isDigit && d2.isDigit && d3.isDigit && d4.isDigit then
      some (String.mk [d1, d2, d3, d4])
    else yearSearchList (d1 :: d2 :: d3 :: d4 :: ')' :: [])
  | _ :: rest => yearSearchList rest

/-- Search form of the bare year pattern. -/
def yearSearch (s : String) : Option String := yearSearchList s.toList

/- ## modules/media_matcher.py

`MediaMatcher` is modelled by free functions over `FS`; the instance fields
`movies_dir` / `shows_dir` / `collections_dir` become `Option String`
arguments (`None` in Python is `none`), and `_get_dir_listing` (a cached
`os.listdir` that turns lookup errors into `[]`) collapses to `FS.listdir`. -/

/-- Order-preserving deduplication (first occurrence wins). -/
def dedupeAux (seen : List String) : List String → List String
  | [] => []
  | x :: rest =>
    if seen.contains x then dedupeAux seen rest
    else x :: dedupeAux (x :: seen) rest

/-- MediaMatcher._create_name_variants: the thirteen lowered spellings of a
name, space-normalised, stripped and deduplicated. -/
def create_name_variants (name : String) : List String :=
  if name = "" then []
  else
    let l := pyLower name
    let variants : List String :=
      [l,
       replaceChar '-' ' ' l,
       replaceChar ':' ' ' l,
       removeChar squote l,
       removeChar '.' l,
       removeChar '-' l,
       subNonWordEmpty l,
       subNonWordSpace l,
       removeSpaces (removeChar '-' l),
       subDashSp l,
       subSpDash l,
       subDashSpread l,
       subAroundDash l]
    dedupeAux [] (variants.map (fun v => pyStrip (collapseSpaces v)))

/-- The cross product check the matchers run over two variant lists: some
pair is equal or one contains the other. -/
def variantsCrossHit (avs bvs : List String) : Bool :=
  avs.any (fun av => bvs.any (fun bv => av == bv || pyIn av bv || pyIn bv av))

/-- MediaMatcher._find_movie_match. -/
def find_movie_match (fs : FS) (movies_dir : Option String) (movie_name movie_year : String) : Bool :=
  match movies_dir with
  | none => false
  | some md =>
    if movie_name = "" then false
    else
      let movie_variants := create_name_variants movie_name
      (fs.listdir md).any (fun dir_name =>
        match mediaMatchAt dir_name with
        | none => false
        | some (dn, dy) =>
          let dir_name_clean := pyStrip dn
          if movie_year != dy then false
          else
            variantsCrossHit movie_variants (create_name_variants dir_name_clean) ||
            (removeSpaces (removeChar '-' (pyLower movie_name)) ==
             removeSpaces (removeChar '-' (pyLower dir_name_clean))))

/-- The four-way comparison shared by every collection matcher in the
repository: direct equality or containment after deleting the word
"collection", or equality after also deleting special characters.
`file_base` arrives already lowered. -/
def collectionDirHit (file_base dir_name : String) : Bool :=
  let dir_base := pyLower dir_name
  let file_name_norm := pyStrip (pyReplace "collection" "" file_base)
  let dir_name_norm := pyStrip (pyReplace "collection" "" dir_base)
  let file_name_clean := subNonWordEmpty file_name_norm
  let dir_name_clean := subNonWordEmpty dir_name_norm
  file_name_norm == dir_name_norm || pyIn file_name_norm dir_name_norm ||
    pyIn dir_name_norm file_name_norm || file_name_clean == dir_name_clean

/-- MediaMatcher._find_collection_match. -/
def find_collection_match (fs : FS) (collections_dir : Option String) (filename : String) : Bool :=
  match collections_dir with
  | none => false
  | some cd =>
    let clean_filename := collapseSpaces (pyStrip filename)
    let file_base := pyLower (splitExt clean_filename).1
    (fs.listdir cd).any (collectionDirHit file_base)

/-- MediaMatcher._find_show_directory. -/
def find_show_directory (fs : FS) (shows_dir : Option String) (show_name : String) (show_year : Option String) : Option String :=
  match shows_dir with
  | none => none
  | some sd =>
    if show_name = "" then none
    else
      let expected_dir := match show_year with
        | some y => if y ≠ "" then show_name ++ " (" ++ y ++ ")" else show_name
        | none => show_name
      if fs.pathExists (pjoin sd expected_dir) then some expected_dir
      else
        let show_variants := create_name_variants show_name
        match (fs.listdir sd).find? (fun dir_name =>
            match mediaMatchAt dir_name with
            | some (dn, dy) =>
              (match show_year with
               | some y => y == dy
               | none => false) &&
              (show_variants.any (fun sv => (create_name_variants (pyStrip dn)).contains sv))
            | none => false) with
        | some d => some d
        | none =>
          let matching_dirs := (fs.listdir sd).filter (fun dir_name =>
            match mediaMatchAt dir_name with
            | some (dn, _) => variantsCrossHit show_variants (create_name_variants (pyStrip dn))
            | none => false)
          match matching_dirs.find? (fun m => pyIn "(US)" m || pyIn "(USA)" m) with
          | some m => some m
          | none => matching_dirs.head?

/-- MediaMatcher.find_best_show_directory (called with the default
`show_name=None`, `show_year=None`, as every caller in the repository does). -/
def find_best_show_directory (fs : FS) (shows_dir : Option String) (filename : String) : Option String :=
  match shows_dir with
  | none => none
  | some sd =>
    let show_name := match lazyTitleDashParen filename with
      | some g => pyStrip g
      | none => takeUntilChar '.' filename
    let exact_matches := (fs.listdir sd).filter
      (fun d => pyLower show_name == pyLower (pyStrip (takeUntilChar '(' d)))
    let partial_matches := (fs.listdir sd).filter
      (fun d => !(pyLower show_name == pyLower (pyStrip (takeUntilChar '(' d))) &&
        pyIn (pyLower show_name) (pyLower (pyStrip (takeUntilChar '(' d))))
    if exact_matches ≠ [] then
      match exact_matches.find? (fun m => pyIn "(US)" m || pyIn "(USA)" m) with
      | some m => some m
      | none => exact_matches.head?
    else
      match partial_matches.find? (fun m => pyIn "(US)" m || pyIn "(USA)" m) with
      | some m => some m
      | none => partial_matches.head?

/-- Return record of MediaMatcher.match_media. -/
structure MediaInfo where
  category : Option String
  season_number : Option String
  episode_number : Option String
  show_name : Option String
  show_year : Option String
deriving DecidableEq, Repr

/-- MediaMatcher.match_media. -/
def match_media (fs : FS) (movies_dir shows_dir collections_dir : Option String) (filename : String) : MediaInfo :=
  let season_match := seasonSearch filename
  let episode_match := epSearch filename
  let specials_match := specialsFound filename
  let media_match := mediaSearch filename
  let collection_match := collectionFound filename
  let show_name : Option String := media_match.map (fun p => pyStrip p.1)
  let show_year : Option String := media_match.map (fun p => pyStrip p.2)
  let nameNonEmpty : Bool := (show_name.getD "") != ""
  let cat1 : Option String :=
    if media_match.isSome && movies_dir.isSome then
      if find_movie_match fs movies_dir (show_name.getD "") (show_year.getD "") then some "movie"
      else none
    else none
  let cat2 : Option String :=
    if cat1.isNone && collection_match && collections_dir.isSome then
      if find_collection_match fs collections_dir filename then some "collection" else cat1
    else cat1
  if cat2.isNone && shows_dir.isSome then
    match season_match with
    | some num =>
      let c : Option String :=
        if nameNonEmpty && (find_show_directory fs shows_dir (show_name.getD "") show_year).isNone
        then none else some "season"
      ⟨c, some num, none, show_name, show_year⟩
    | none =>
      if specials_match then
        let c : Option String :=
          if nameNonEmpty && (find_show_directory fs shows_dir (show_name.getD "") show_year).isNone
          then none else some "season"
        ⟨c, none, none, show_name, show_year⟩
      else
        match episode_match with
        | some (sn, en) =>
          let c : Option String :=
            if nameNonEmpty && (find_show_directory fs shows_dir (show_name.getD "") show_year).isNone
            then none else some "episode"
          ⟨c, some sn, some en, show_name, show_year⟩
        | none =>
          if media_match.isSome then
            if (find_show_directory fs shows_dir (show_name.getD "") show_year).isSome then
              ⟨some "show", none, none, show_name, show_year⟩
            else ⟨none, none, none, show_name, show_year⟩
          else ⟨cat2, none, none, show_name, show_year⟩
  else ⟨cat2, none, none, show_name, show_year⟩

/- ## asset-assistant.py: categories()

The top-level script.  `service` is `config.get('service', None)`; an unset
value is `none`.  `movies_dir` / `collections_dir` may be null in the YAML
file (Python `None`), hence `Option String`; the code path needs
`shows_dir` as a plain string (a null shows directory would raise inside
`os.path.join`, which no claim exercises).  `categories` returns the triple
`(category, season_number, episode_number)` or the uncaught exception the
final logging block can raise, together with the file operations performed
(`move_to_failed`). -/

/-- Truthiness of the `service` configuration value. -/
def svcTruthy : Option String → Bool
  | some s => s != ""
  | none => false

/-- Membership of `service` in `["kometa", "kodi"]`. -/
def svcKK : Option String → Bool
  | some s => s == "kometa" || s == "kodi"
  | none => false

/-- The eight spelling variants the script builds inline for movie matching
(lines 279-298 of asset-assistant.py); the argument arrives lowered. -/
def scriptVariants (l : String) : List String :=
  [l,
   replaceChar '-' ' ' l,
   replaceChar ':' ' ' l,
   removeChar squote l,
   removeChar '.' l,
   removeChar '-' l,
   subNonWordEmpty l,
   subNonWordSpace l]

/-- One directory of the movie-matching loop of `categories` (lines
272-326): variant cross check with matching year, then the normalised
fallback. -/
def scriptMovieDirHit (show_name show_year dir_name : String) : Bool :=
  match mediaMatchAt dir_name with
  | none => false
  | some (dt, dy) =>
    let dir_name_clean := pyLower (pyStrip dt)
    let fvs := scriptVariants (pyLower show_name)
    let dvs := scriptVariants dir_name_clean
    let variantHit := fvs.any (fun fv => dvs.any (fun dv =>
      (fv == dv || pyIn fv dv || pyIn dv fv) && show_year == dy))
    let file_normalized := removeSpaces (removeChar '-' (pyLower show_name))
    let dir_normalized := removeSpaces (removeChar '-' dir_name_clean)
    variantHit || (file_normalized == dir_normalized && show_year == dy)

/-- Step 3 of the episode show-directory search of `categories`: fold
keeping the first directory whose parenthesised year is strictly closest to
the asset year (initial distance 9999). -/
def closestYearFold (show_year : String) : List String → Option String × Int → Option String × Int
  | [], acc => acc
  | m :: rest, (best, diff) =>
    match yearSearch m with
    | some dy =>
      let yd : Int := (pyInt show_year - pyInt dy).natAbs
      if yd < diff then closestYearFold show_year rest (some m, yd)
      else closestYearFold show_year rest (best, diff)
    | none => closestYearFold show_year rest (best, diff)

/-- Steps 1-5 of the episode show-directory search of `categories` (lines
417-486): collect prefix matches, prefer the exact name-year directory, then
US variants, then the closest year, and fall back to substring matches that
avoid AU/UK/CA tags. -/
def episodeBestMatch (fs : FS) (shows_dir show_name show_year : String) : Option String :=
  let exact_match := show_name ++ " (" ++ show_year ++ ")"
  let matching_dirs := (fs.listdir shows_dir).filter (fun d =>
    match mediaMatchAt d with
    | some (dn, _) => pyStartsWith (pyLower show_name) (pyLower (pyStrip dn))
    | none => false)
  let best0 : Option String :=
    if matching_dirs.length > 1 then
      match matching_dirs.find? (fun m => pyLower m == pyLower exact_match) with
      | some m => some m
      | none => matching_dirs.find? (fun m => pyIn "(US)" m || pyIn "(USA)" m)
    else none
  let best1 : Option String :=
    match best0 with
    | none => (closestYearFold show_year matching_dirs (none, 9999)).1
    | some b => some b
  match best1 with
  | some b => some b
  | none =>
    match (fs.listdir shows_dir).find? (fun d =>
        pyIn (pyLower show_name) (pyLower d) &&
        !(pyIn "(AU)" d || pyIn "(UK)" d || pyIn "(CA)" d)) with
    | some d => some d
    | none => (fs.listdir shows_dir).find? (fun d => pyIn (pyLower show_name) (pyLower d))

/-- Result of `categories` / the processing helpers that can raise. -/
inductive CatOut where
  | ok (category season_number episode_number : Option String)
  | raised (excName : String)
deriving DecidableEq, Repr

/-- The `move_to_failed` helper of the script (it swallows every move
error, so the model records the attempted move unconditionally). -/
def moveToFailedOp (process_dir failed_dir filename : String) : FileOp :=
  FileOp.moveTo (pjoin process_dir filename) failed_dir filename

/-- Category and season/episode numbers computed by categories() before its
final failure-handling block (lines 243-522 of asset-assistant.py). -/
def categoriesCore (fs : FS) (filename : String) (movies_dir : Option String) (shows_dir : String) (collections_dir : Option String) (service : Option String) : Option String × Option String × Option String :=
  let season_match := seasonSearch filename
  let episode_match := epSearch filename
  let specials_match := specialsFound filename
  let media_match := mediaSearch filename
  let collection_match := collectionFound filename
  let show_name : Option String := media_match.map (fun p => pyStrip p.1)
  let show_year : Option String := media_match.map (fun p => pyStrip p.2)
  let nameNonEmpty : Bool := (show_name.getD "") != ""
  -- movie check (lines 262-326)
  let cat1 : Option String :=
    match media_match, movies_dir with
    | some _, some md =>
      if (fs.listdir md).any (scriptMovieDirHit (show_name.getD "") (show_year.getD ""))
      then some "movie" else none
    | _, _ => none
  -- collection check (lines 328-375); the nested `not_supported` branch is
  -- unreachable there (the guard already requires a kometa/kodi service)
  -- and therefore drops out of the model
  let cat2 : Option String :=
    if cat1.isNone && collection_match && collections_dir.isSome && svcKK service then
      let cd := collections_dir.getD ""
      let clean_filename := collapseSpaces (pyStrip filename)
      let file_base := pyLower (splitExt clean_filename).1
      if (fs.listdir cd).any (collectionDirHit file_base) then some "collection" else cat1
    else cat1
  -- TV block (line 378: everything except a movie) or, for movies, the
  -- second collection check (lines 492-522)
  let res : Option String × Option String × Option String :=
    if cat2 != some "movie" then
      match season_match with
      | some num =>
        if svcTruthy service then
          let c : Option String :=
            if nameNonEmpty &&
               !(fs.pathExists (pjoin shows_dir ((show_name.getD "") ++ " (" ++ (show_year.getD "") ++ ")")))
            then none else some "season"
          (c, some num, none)
        else (some "skip", none, none)
      | none =>
        if specials_match then
          if svcTruthy service then
            let c : Option String :=
              if nameNonEmpty &&
                 !(fs.pathExists (pjoin shows_dir ((show_name.getD "") ++ " (" ++ (show_year.getD "") ++ ")")))
              then none else some "season"
            (c, none, none)
          else (some "skip", none, none)
        else
          match episode_match with
          | some (sn, en) =>
            if svcTruthy service then
              let c : Option String :=
                if nameNonEmpty &&
                   (episodeBestMatch fs shows_dir (show_name.getD "") (show_year.getD "")).isNone
                then none else some "episode"
              (c, some sn, some en)
            else (some "skip", none, none)
          | none => (cat2, none, none)
    else
      match collections_dir with
      | some cd =>
        let clean_filename := collapseSpaces (pyStrip filename)
        let file_base := pyLower (splitExt clean_filename).1
        match (fs.listdir cd).find? (collectionDirHit file_base) with
        | some _ =>
          if svcKK service then (some "collection", none, none)
          else (some "not_supported", none, none)
        | none => (cat2, none, none)
      | none => (cat2, none, none)
  res

/-- asset-assistant.py categories() (lines 243-536): the core computation
above followed by the final failure-handling block (lines 524-536).
Anything outside the five success categories is moved to the failed
directory; the `not_supported` log line calls service.capitalize() and
raises AttributeError when service is None. -/
def categories (fs : FS) (filename : String) (movies_dir : Option String) (shows_dir : String) (collections_dir : Option String) (service : Option String) (process_dir failed_dir : String) : CatOut × List FileOp :=
  let res := categoriesCore fs filename movies_dir shows_dir collections_dir service
  let cat := res.1
  if cat == some "movie" || cat == some "show" || cat == some "season" ||
     cat == some "episode" || cat == some "collection" then
    (CatOut.ok cat res.2.1 res.2.2, [])
  else
    if cat == some "not_supported" && service == none then
      (CatOut.raised "AttributeError", [moveToFailedOp process_dir failed_dir filename])
    else
      (CatOut.ok cat res.2.1 res.2.2, [moveToFailedOp process_dir failed_dir filename])

/- ## asset-assistant.py: copy_and_rename()

The script copies with bare `shutil.copy` / `os.rename` (no try blocks), so
an injected failure surfaces as an uncaught exception.  `plex_specials` is
the module-level config value the function reads. -/

/-- Collection branch loop of copy_and_rename (lines 609-648): each hit
directory receives a copy; `PIL.Image.open` and `os.rename` run inside a
try whose handler continues with the next directory, so a failed open or
rename leaves the copy behind and keeps scanning. -/
def crCollectionLoop (fs : FS) (src directory filename file_base : String) : List String → Bool × List FileOp × Option String
  | [] => (false, [], none)
  | dir_name :: rest =>
    if collectionDirHit (pyLower file_base) dir_name then
      let destDir := pjoin directory dir_name
      let dest := pjoin destDir filename
      if fs.copyFails src dest then (false, [], some "shutil.copy")
      else
        let ops0 := [FileOp.copyTo src destDir filename]
        match fs.imageSize dest with
        | some (w, h) =>
          let new_name := (if h > w then "poster" else "background") ++ (splitExt filename).2
          if fs.renameFails dest (pjoin destDir new_name) then
            match crCollectionLoop fs src directory filename file_base rest with
            | (m, ops, exc) => (m, ops0 ++ ops, exc)
          else (true, ops0 ++ [FileOp.renameTo dest destDir new_name], none)
        | none =>
          match crCollectionLoop fs src directory filename file_base rest with
          | (m, ops, exc) => (m, ops0 ++ ops, exc)
    else crCollectionLoop fs src directory filename file_base rest

/-- Show-directory condition shared by the season branches (lines 667 and
754): the part of the filename before the first closing parenthesis,
stripped and lowered, occurs in the same prefix of the directory name. -/
def seasonShowDirHit (filename dir_name : String) : Bool :=
  pyIn (pyLower (pyStrip (takeUntilChar ')' filename)))
       (pyLower (pyStrip (takeUntilChar ')' dir_name)))

/-- Video-file search of the plex episode branches (lines 915-924 and the
module twin): first `.mkv`/`.mp4`/`.avi` entry whose SxxEyy groups equal the
zero-filled asset numbers. -/
def findEpisodeVideo (sn en : String) : List String → Option String
  | [] => none
  | v :: rest =>
    if pyEndsWith ".mkv" v || pyEndsWith ".mp4" v || pyEndsWith ".avi" v then
      match epLast v with
      | some (vs, ve) =>
        if sn == vs && en == ve then some v else findEpisodeVideo sn en rest
      | none => findEpisodeVideo sn en rest
    else findEpisodeVideo sn en rest

/-- Continuation of the plex season branch of copy_and_rename once the
season directory name is fixed (lines 774-794): create the directory when
missing, copy, rename. -/
def crPlexSeasonBody (fs : FS) (src show_dir filename : String) (season_number : Option String) (sdn : String) : PyResult × List FileOp :=
  let season_dir := pjoin show_dir sdn
  let mkOps := if fs.pathExists season_dir then [] else [FileOp.mkdir season_dir]
  let dest := pjoin season_dir filename
  if fs.copyFails src dest then (PyResult.raised "shutil.copy", mkOps)
  else
    let new_name := (match season_number with
      | some n => "Season" ++ zfill 2 n
      | none => "season-specials-poster") ++ (splitExt filename).2
    if fs.renameFails dest (pjoin season_dir new_name) then
      (PyResult.raised "os.rename", mkOps ++ [FileOp.copyTo src season_dir filename])
    else
      (PyResult.ok "season",
       mkOps ++ [FileOp.copyTo src season_dir filename, FileOp.renameTo dest season_dir new_name])

/-- Continuation of the plex episode branch of copy_and_rename once the
season directory name is fixed (lines 905-944). -/
def crPlexEpisodeBody (fs : FS) (src show_dir filename sn en sdn process_dir failed_dir : String) : PyResult × List FileOp :=
  let season_dir := pjoin show_dir sdn
  if !(fs.pathExists season_dir) then
    (PyResult.ok "failed", [moveToFailedOp process_dir failed_dir filename])
  else
    match findEpisodeVideo sn en (fs.listdir season_dir) with
    | some v =>
      let new_name := (splitExt v).1 ++ (splitExt filename).2
      let dest := pjoin season_dir filename
      if fs.copyFails src dest then (PyResult.raised "shutil.copy", [])
      else if fs.renameFails dest (pjoin season_dir new_name) then
        (PyResult.raised "os.rename", [FileOp.copyTo src season_dir filename])
      else
        (PyResult.ok "episode",
         [FileOp.copyTo src season_dir filename, FileOp.renameTo dest season_dir new_name])
    | none => (PyResult.ok "failed", [moveToFailedOp process_dir failed_dir filename])

/-- US-priority pick of the kometa episode branch (lines 717-732): with
several matches prefer a US-tagged directory, else the first; the argument
list is non-empty at the call site. -/
def kometaEpisodeBest (matching_dirs : List String) : String :=
  if matching_dirs.length > 1 then
    match matching_dirs.find? (fun m => pyIn "(US)" m || pyIn "(USA)" m) with
    | some m => m
    | none => matching_dirs.headD ""
  else matching_dirs.headD ""

/-- Show-directory search of the plex episode branch of copy_and_rename
(lines 819-859): exact title matches first with US priority, then substring
matches with US priority. -/
def plexEpisodeBest (listing : List String) (file_show_name : String) : Option String :=
  let exact_matches := listing.filter (fun d =>
    pyLower file_show_name == pyStrip (takeUntilChar '(' (pyLower d)))
  let partial_matches := listing.filter (fun d =>
    !(pyLower file_show_name == pyStrip (takeUntilChar '(' (pyLower d))) &&
    pyIn (pyLower file_show_name) (pyLower d))
  if !exact_matches.isEmpty then
    match exact_matches.find? (fun m => pyIn "(US)" m || pyIn "(USA)" m) with
    | some m => some m
    | none => exact_matches.head?
  else
    match partial_matches.find? (fun m => pyIn "(US)" m || pyIn "(USA)" m) with
    | some m => some m
    | none => partial_matches.head?

/-- Best-directory search of the movie/show branch of copy_and_rename
(lines 546-591): exact name-and-year match, then substring fallback; for
filenames without a year, simple-name match then substring fallback. -/
def crMovieShowBestMatch (fs : FS) (directory filename : String) : Option String :=
  match mediaMatchAt filename with
  | some (nm, yr) =>
    let file_name := pyLower (pyStrip nm)
    match (fs.listdir directory).find? (fun d =>
        match mediaMatchAt d with
        | some (dt, dy) => file_name == pyLower (pyStrip dt) && yr == dy
        | none => false) with
    | some d => some d
    | none => (fs.listdir directory).find? (fun d => pyIn file_name (pyLower d))
  | none =>
    let file_name_simple := pyLower (takeUntilChar '.' filename)
    match (fs.listdir directory).find? (fun d =>
        file_name_simple == pyStrip (takeUntilChar '(' (pyLower d))) with
    | some d => some d
    | none => (fs.listdir directory).find? (fun d => pyIn file_name_simple (pyLower d))

/-- asset-assistant.py copy_and_rename() (lines 539-957). -/
def copy_and_rename (fs : FS) (plex_specials : Option Bool) (filename category : String) (season_number episode_number : Option String) (movies_dir shows_dir collections_dir process_dir failed_dir : String) (service : Option String) : PyResult × List FileOp :=
  let src := pjoin process_dir filename
  if category == "movie" || category == "show" then
    let directory := if category == "movie" then movies_dir else shows_dir
    match crMovieShowBestMatch fs directory filename with
    | some b =>
      let dest := pjoin (pjoin directory b) filename
      if fs.copyFails src dest then (PyResult.raised "shutil.copy", [])
      else
        -- the function body stops after the copy (the source comment reads
        -- "Continue with the rest of the function as before..." with no code
        -- after it); control falls to `return category` at line 957
        (PyResult.ok category, [FileOp.copyTo src (pjoin directory b) filename])
    | none => (PyResult.ok category, [])
  else if category == "collection" then
    match crCollectionLoop fs src collections_dir filename (takeUntilChar '.' filename)
        (fs.listdir collections_dir) with
    | (_, ops, some e) => (PyResult.raised e, ops)
    | (true, ops, none) => (PyResult.ok "collection", ops)
    | (false, ops, none) =>
      (PyResult.ok "failed", ops ++ [moveToFailedOp process_dir failed_dir filename])
  else if service == some "kometa" then
    if category == "season" then
      match (fs.listdir shows_dir).find? (seasonShowDirHit filename) with
      | some dir_name =>
        let destDir := pjoin shows_dir dir_name
        let dest := pjoin destDir filename
        if fs.copyFails src dest then (PyResult.raised "shutil.copy", [])
        else
          let new_name := (match season_number with
            | some n => "Season" ++ zfill 2 n
            | none => "Season00") ++ (splitExt filename).2
          if fs.renameFails dest (pjoin destDir new_name) then
            (PyResult.raised "os.rename", [FileOp.copyTo src destDir filename])
          else
            (PyResult.ok "season",
             [FileOp.copyTo src destDir filename, FileOp.renameTo dest destDir new_name])
      | none =>
        -- no match: the loop ends without a return and control reaches
        -- `return category` at line 957 (the file is left in place)
        (PyResult.ok category, [])
    else if category == "episode" then
      match lazyTitleParenEnd filename with
      | none => (PyResult.ok "failed", [moveToFailedOp process_dir failed_dir filename])
      | some g =>
        let file_show_name := pyLower (pyStrip g)
        let matching_dirs := (fs.listdir shows_dir).filter (fun d =>
          let dsn := pyLower (pyStrip (takeUntilChar '(' d))
          pyIn file_show_name dsn || pyIn dsn file_show_name)
        if matching_dirs.isEmpty then
          (PyResult.ok "failed", [moveToFailedOp process_dir failed_dir filename])
        else
          let best := kometaEpisodeBest matching_dirs
          let destDir := pjoin shows_dir best
          let dest := pjoin destDir filename
          if fs.copyFails src dest then (PyResult.raised "shutil.copy", [])
          else
            match season_number, episode_number with
            | some sn, some en =>
              let new_name := "S" ++ zfill 2 sn ++ "E" ++ zfill 2 en ++ (splitExt filename).2
              if fs.renameFails dest (pjoin destDir new_name) then
                (PyResult.raised "os.rename", [FileOp.copyTo src destDir filename])
              else
                (PyResult.ok "episode",
                 [FileOp.copyTo src destDir filename, FileOp.renameTo dest destDir new_name])
            | _, _ =>
              -- season_number.zfill / episode_number.zfill on None
              (PyResult.raised "AttributeError", [FileOp.copyTo src destDir filename])
    else (PyResult.ok category, [])
  else if service == some "plex" then
    if category == "season" then
      match (fs.listdir shows_dir).find? (seasonShowDirHit filename) with
      | none => (PyResult.ok "failed", [moveToFailedOp process_dir failed_dir filename])
      | some dir_name =>
        let show_dir := pjoin shows_dir dir_name
        match season_number with
        | some n => crPlexSeasonBody fs src show_dir filename season_number ("Season " ++ zfill 2 n)
        | none =>
          if pyIn "Specials" filename then
            match plex_specials with
            | none => (PyResult.exited 1, [])
            | some ps => crPlexSeasonBody fs src show_dir filename none (if ps then "Specials" else "Season 00")
          else
            -- season_dir_name is referenced without ever being assigned
            (PyResult.raised "NameError", [])
    else if category == "episode" then
      let file_show_name := match lazyTitleDash filename with
        | some g => pyStrip g
        | none => takeUntilChar '.' filename
      match plexEpisodeBest (fs.listdir shows_dir) file_show_name with
      | none => (PyResult.ok "failed", [moveToFailedOp process_dir failed_dir filename])
      | some b =>
        let show_dir := pjoin shows_dir b
        match epLast filename with
        | none => (PyResult.ok "failed", [moveToFailedOp process_dir failed_dir filename])
        | some (sn0, en0) =>
          let sn := zfill 2 sn0
          let en := zfill 2 en0
          if sn == "00" then
            match plex_specials with
            | none => (PyResult.exited 1, [])
            | some ps =>
              crPlexEpisodeBody fs src show_dir filename sn en
                (if ps then "Specials" else "Season 00") process_dir failed_dir
          else
            crPlexEpisodeBody fs src show_dir filename sn en
              ("Season " ++ zfill 2 sn) process_dir failed_dir
    else (PyResult.ok category, [])
  else
    (PyResult.ok category, [moveToFailedOp process_dir failed_dir filename])

/- ## modules/asset_processor.py: the plex handlers

`AssetProcessor` fields become arguments; copies and renames go through the
`copy_file` / `rename_file` wrappers of file_operations.py, which catch
errors and return a boolean, so an injected failure changes control flow
instead of raising. -/

/-- Season directory naming rule shared by the plex handlers: `Season NN`,
or for season 00 the `Specials` / `Season 00` choice that `plex_specials`
selects (`none` when the setting is absent and the code refuses to pick). -/
def plexSeasonDirName (plex_specials : Option Bool) (sn : String) : Option String :=
  if sn == "00" then
    match plex_specials with
    | none => none
    | some true => some "Specials"
    | some false => some "Season 00"
  else some ("Season " ++ sn)

/-- Body of AssetProcessor._process_plex_season after the season directory
name is fixed (lines 515-538): mkdir when missing, guarded copy, rename
with ignored result. -/
def appPlexSeasonBody (fs : FS) (process_dir failed_dir show_dir filename : String) (season_number : Option String) (sdn : String) : PyResult × List FileOp :=
  let season_dir := pjoin show_dir sdn
  let mkOps := if fs.pathExists season_dir then [] else [FileOp.mkdir season_dir]
  let src := pjoin process_dir filename
  let dest := pjoin season_dir filename
  if fs.copyFails src dest then
    (PyResult.ok "failed", mkOps ++ [moveToFailedOp process_dir failed_dir filename])
  else
    let new_name := (match season_number with
      | some n => "Season" ++ zfill 2 n
      | none => "season-specials-poster") ++ (splitExt filename).2
    let rnOps := if fs.renameFails dest (pjoin season_dir new_name) then []
      else [FileOp.renameTo dest season_dir new_name]
    (PyResult.ok "season", mkOps ++ [FileOp.copyTo src season_dir filename] ++ rnOps)

/-- AssetProcessor._process_plex_season (lines 486-547). -/
def process_plex_season (fs : FS) (shows_dir : Option String) (process_dir failed_dir : String) (plex_specials : Option Bool) (filename : String) (season_number : Option String) : PyResult × List FileOp :=
  match shows_dir with
  | none => (PyResult.ok "failed", [])
  | some sd =>
    match (fs.listdir sd).find? (seasonShowDirHit filename) with
    | some dir_name =>
      let show_dir := pjoin sd dir_name
      match season_number with
      | some n => appPlexSeasonBody fs process_dir failed_dir show_dir filename season_number ("Season " ++ zfill 2 n)
      | none =>
        if pyIn "Specials" filename then
          match plex_specials with
          | none => (PyResult.ok "failed", [])
          | some ps =>
            appPlexSeasonBody fs process_dir failed_dir show_dir filename none
              (if ps then "Specials" else "Season 00")
        else
          -- season_dir_name is referenced at line 516 without being assigned
          (PyResult.raised "NameError", [])
    | none => (PyResult.ok "failed", [moveToFailedOp process_dir failed_dir filename])

/-- AssetProcessor._process_plex_episode (lines 549-624).  `season_number`
and `episode_number` are the digit strings match_media extracted (the only
caller passes the groups of the episode pattern). -/
def process_plex_episode (fs : FS) (shows_dir : Option String) (process_dir failed_dir : String) (plex_specials : Option Bool) (filename season_number episode_number : String) : PyResult × List FileOp :=
  match shows_dir with
  | none => (PyResult.ok "failed", [])
  | some sd =>
    match find_best_show_directory fs (some sd) filename with
    | some best =>
      let show_dir := pjoin sd best
      let sn := zfill 2 season_number
      let en := zfill 2 episode_number
      match plexSeasonDirName plex_specials sn with
      | none => (PyResult.ok "failed", [])
      | some sdn =>
        let season_dir := pjoin show_dir sdn
        if !(fs.pathExists season_dir) then
          (PyResult.ok "failed", [moveToFailedOp process_dir failed_dir filename])
        else
          match findEpisodeVideo sn en (fs.listdir season_dir) with
          | some v =>
            let new_name := (splitExt v).1 ++ (splitExt filename).2
            let src := pjoin process_dir filename
            let dest := pjoin season_dir filename
            if fs.copyFails src dest then
              (PyResult.ok "failed", [moveToFailedOp process_dir failed_dir filename])
            else if fs.renameFails dest (pjoin season_dir new_name) then
              (PyResult.ok "failed",
               [FileOp.copyTo src season_dir filename, moveToFailedOp process_dir failed_dir filename])
            else
              (PyResult.ok "episode",
               [FileOp.copyTo src season_dir filename, FileOp.renameTo dest season_dir new_name])
          | none => (PyResult.ok "failed", [moveToFailedOp process_dir failed_dir filename])
    | none => (PyResult.ok "failed", [moveToFailedOp process_dir failed_dir filename])

/- ## modules/file_operations.py: the five helpers

The underlying OS call is summarised by `OSResult`; `PyExc` models the
`Exception` hierarchy the handlers catch. -/

/-- Outcome of the wrapped OS call. -/
inductive OSResult where
  | success
  | errFileNotFound
  | errPermission
  | errOther (msg : String)
deriving DecidableEq, Repr

/-- Python exceptions below `Exception` as the except clauses see them. -/
inductive PyExc where
  | fileNotFound
  | permission
  | other (msg : String)
deriving DecidableEq, Repr

/-- Run the underlying OS operation. -/
def osRun : OSResult → Except PyExc Unit
  | OSResult.success => Except.ok ()
  | OSResult.errFileNotFound => Except.error PyExc.fileNotFound
  | OSResult.errPermission => Except.error PyExc.permission
  | OSResult.errOther m => Except.error (PyExc.other m)

/-- file_operations.move_to_failed (lines 51-63): `shutil.move` with every
`Exception` subclass caught and logged. -/
def move_to_failed (r : OSResult) : Except PyExc Unit :=
  match osRun r with
  | Except.ok _ => Except.ok ()
  | Except.error PyExc.fileNotFound => Except.ok ()
  | Except.error PyExc.permission => Except.ok ()
  | Except.error (PyExc.other _) => Except.ok ()

/-- file_operations.backup_file (lines 65-78). -/
def backup_file (r : OSResult) : Except PyExc Unit :=
  match osRun r with
  | Except.ok _ => Except.ok ()
  | Except.error PyExc.fileNotFound => Except.ok ()
  | Except.error PyExc.permission => Except.ok ()
  | Except.error (PyExc.other _) => Except.ok ()

/-- file_operations.copy_file (lines 80-94): True on success, every error
caught, logged and turned into False. -/
def copy_file (r : OSResult) : Except PyExc Bool :=
  match osRun r with
  | Except.ok _ => Except.ok true
  | Except.error PyExc.fileNotFound => Except.ok false
  | Except.error PyExc.permission => Except.ok false
  | Except.error (PyExc.other _) => Except.ok false

/-- file_operations.rename_file (lines 96-107). -/
def rename_file (r : OSResult) : Except PyExc Bool :=
  match osRun r with
  | Except.ok _ => Except.ok true
  | Except.error PyExc.fileNotFound => Except.ok false
  | Except.error PyExc.permission => Except.ok false
  | Except.error (PyExc.other _) => Except.ok false

/-- file_operations.delete_file (lines 109-121). -/
def delete_file (r : OSResult) : Except PyExc Bool :=
  match osRun r with
  | Except.ok _ => Except.ok true
  | Except.error PyExc.fileNotFound => Except.ok false
  | Except.error PyExc.permission => Except.ok false
  | Except.error (PyExc.other _) => Except.ok false

/-- Whether an Except value is a normal return. -/
def exceptOk {e a : Type} : Except e a → Bool
  | Except.ok _ => true
  | Except.error _ => false

/- ## modules/notifications.py: generate_summary, and the script call site

The script (asset-assistant.py line 1055) calls
`generate_summary(moved_counts, backup_enabled, total_runtime, version)`
while the function signature is
`generate_summary(moved_counts, compress_images, image_quality, backup_enabled)`.
`PyVal` carries the dynamically typed arguments. -/

/-- The per-category tallies of the run. -/
structure MovedCounts where
  movie : Nat
  shows : Nat
  season : Nat
  episode : Nat
  collection : Nat
  failed : Nat
deriving DecidableEq, Repr

/-- Dynamically typed Python value as `generate_summary` receives it: a
bool, a string, or a float (kept as its display text). -/
inductive PyVal where
  | pybool (b : Bool)
  | pystr (s : String)
  | pyfloat (rep : String)
deriving DecidableEq, Repr

/-- Python truthiness for `PyVal` (a float is falsy exactly at zero). -/
def pyTruthy : PyVal → Bool
  | PyVal.pybool b => b
  | PyVal.pystr s => s != ""
  | PyVal.pyfloat r => r != "0.0"

/-- Display text used by the f-string interpolation. -/
def pyDisplay : PyVal → String
  | PyVal.pybool true => "True"
  | PyVal.pybool false => "False"
  | PyVal.pystr s => s
  | PyVal.pyfloat r => r

/-- notifications.generate_summary (lines 28-59).  The backup section
unpacks `backup_enabled` into two values when it is not a bool: a string of
length two unpacks into its (truthy) characters, any other string raises
ValueError, and a float is not iterable at all (TypeError). -/
def generate_summary (moved_counts : MovedCounts) (compress_images image_quality backup_enabled : PyVal) : Except String String :=
  let summary :=
    "**Movie Assets:**\n " ++ toString moved_counts.movie ++ "\n" ++
    "**Show Assets:**\n " ++ toString moved_counts.shows ++ "\n" ++
    "**Collection Assets:**\n " ++ toString moved_counts.collection ++ "\n" ++
    "**Failures:**\n " ++ toString moved_counts.failed ++ "\n"
  let compress_text :=
    if pyTruthy compress_images then "True (Quality: " ++ pyDisplay image_quality ++ ")"
    else "False"
  let summary := summary ++ "**Compression Enabled?:**\n " ++ compress_text ++ "\n"
  match backup_enabled with
  | PyVal.pybool b =>
    let backup_text := if b then "Yes" else "No"
    Except.ok (summary ++ "**Backup Enabled?**\n " ++ backup_text ++ "\n")
  | PyVal.pystr s =>
    if s.length == 2 then
      -- both one-character strings are truthy
      Except.ok (summary ++ "**Backup Enabled?**\n Yes (Source & Destination)\n")
    else Except.error "ValueError"
  | PyVal.pyfloat _ => Except.error "TypeError"

/-- The call the script makes at the end of every run (line 1055):
positional arguments `(moved_counts, backup_enabled, total_runtime,
version)` against the signature above. -/
def script_summary_call (moved_counts : MovedCounts) (backup_enabled : Bool) (total_runtime_rep version : String) : Except String String :=
  generate_summary moved_counts (PyVal.pybool backup_enabled)
    (PyVal.pyfloat total_runtime_rep) (PyVal.pystr version)

/- ## asset-assistant.py: command line and startup order (lines 33-95)

The parser defines a single option `--version` (argparse adds `-h` and `--help`);
unrecognized arguments make argparse exit with status 2, and option
abbreviations that are unambiguous prefixes are accepted. -/

/-- Outcome of `parser.parse_args(argv)`. -/
inductive ParseOutcome where
  | parsed (version : Bool)
  | helpExit
  | usageExit
deriving DecidableEq, Repr

/-- Whether an argument selects `--version` (full form or unambiguous
abbreviation `--v` ... `--versio`). -/
def isVersionArg (a : String) : Bool :=
  a == "--version" || (a.length ≥ 3 && pyStartsWith a "--version" && pyStartsWith "--v" a)

/-- Whether an argument selects `-h` / `--help` (or abbreviation `--h`). -/
def isHelpArg (a : String) : Bool :=
  a == "-h" || a == "--help" || (a.length ≥ 3 && pyStartsWith a "--help" && pyStartsWith "--h" a)

/-- Model of `parser.parse_args` for the parser built at lines 33-35. -/
def parse_args : List String → ParseOutcome :=
  go false
where
  go (version : Bool) : List String → ParseOutcome
    | [] => ParseOutcome.parsed version
    | a :: rest =>
      if isHelpArg a then ParseOutcome.helpExit
      else if isVersionArg a then go true rest
      else ParseOutcome.usageExit

/-- Startup outcome: exit before processing, or proceed; the flag records
whether configuration loading (lines 50-95) was reached. -/
inductive StartupOutcome where
  | exited (code : Nat) (configLoaded : Bool)
  | proceeded (configLoaded : Bool)
deriving DecidableEq, Repr

/-- Startup order of the script (lines 33-50): parse arguments, read the
VERSION file, print the banner and exit 0 under `--version`, otherwise fall
through to configuration loading. -/
def main_startup (argv : List String) : StartupOutcome :=
  match parse_args argv with
  | ParseOutcome.usageExit => StartupOutcome.exited 2 false
  | ParseOutcome.helpExit => StartupOutcome.exited 0 false
  | ParseOutcome.parsed versionFlag =>
    if versionFlag then StartupOutcome.exited 0 false
    else StartupOutcome.proceeded true

/- ## asset-assistant.py: startup directories and the processing loop -/

/-- Failed/backup directory creation at startup (lines 175-200). -/
def startup_dirs (fs : FS) (failed_dir backup_dir : String) (backup_enabled : Bool) : List FileOp :=
  (if fs.pathExists failed_dir then [] else [FileOp.mkdir failed_dir]) ++
  (if backup_enabled then
    (if fs.pathExists backup_dir then [] else [FileOp.mkdir backup_dir])
   else [])

/-- The supported image extensions of the loop (line 1000). -/
def supportedImageExt (f : String) : Bool :=
  pyEndsWith ".jpg" (pyLower f) || pyEndsWith ".jpeg" (pyLower f) || pyEndsWith ".png" (pyLower f)

/-- Snapshot construction of the processing loop (lines 1002-1011): walk
the directory listing once; regular files with a supported extension enter
`files_to_process`, other regular files are moved to failed.  Returns the
snapshot and the move operations, in listing order. -/
def buildSnapshot (process_dir failed_dir : String) (isFile : String → Bool) : List String → List String × List FileOp
  | [] => ([], [])
  | f :: rest =>
    let r := buildSnapshot process_dir failed_dir isFile rest
    if isFile f && supportedImageExt f then (f :: r.1, r.2)
    else if isFile f then (r.1, moveToFailedOp process_dir failed_dir f :: r.2)
    else r

/-- The visit order of the processing loop (lines 1016-1038): the loop
iterates exactly the snapshot, in order, visiting each entry once (entries
whose file disappeared are still visited, logged and skipped). -/
def processingVisits (process_dir failed_dir : String) (isFile : String → Bool) (listing : List String) : List String :=
  (buildSnapshot process_dir failed_dir isFile listing).1

/-- Check of a trace: every copy lands in a directory that exists on the
initial filesystem or was created by an earlier mkdir of the same trace. -/
def copyParentsOk (ex : String → Bool) : List FileOp → Bool
  | [] => true
  | FileOp.mkdir p :: rest => copyParentsOk (fun q => q == p || ex q) rest
  | FileOp.copyTo _ destDir _ :: rest => ex destDir && copyParentsOk ex rest
  | _ :: rest => copyParentsOk ex rest

/- ## modules/file_operations.py: handle_existing_files and
backup_existing_assets (lines 123-312)

The filesystem affected by these functions is just a set of file paths,
threaded explicitly: `os.path.exists` is membership, `shutil.copy2` adds the
destination, `os.remove` deletes.  The while loop searching for a fresh
backup name gets fuel `existing.length + 1`; exhausted fuel corresponds to a
non-terminating Python loop and makes the model abort with no write. -/

/-- Suffix that the uniqueness counter adds to a backup name. -/
def ctrSuffix : Option Nat → String
  | none => ""
  | some c => "_" ++ toString c

/-- Backup filename construction (lines 170-182 resp. 261-273): media name
with optional season/episode tags, else the destination filename, plus the
`_backup` marker, counter and extension. -/
def backupName (media_name season_number episode_number : Option String) (dest_filename : String) (ctr : Option Nat) (ext : String) : String :=
  match media_name with
  | some m =>
    match season_number, episode_number with
    | some s, some e => m ++ "_S" ++ s ++ "E" ++ e ++ "_backup" ++ ctrSuffix ctr ++ ext
    | some s, none => m ++ "_S" ++ s ++ "_backup" ++ ctrSuffix ctr ++ ext
    | _, _ => m ++ "_backup" ++ ctrSuffix ctr ++ ext
  | none => dest_filename ++ "_backup" ++ ctrSuffix ctr ++ ext

/-- The `while os.path.exists(backup_path)` loop (lines 187-202 resp.
278-293), with fuel. -/
def freshLoop (existing : List String) (backup_dir : String) (mk : Nat → String) : Nat → Nat → Option String
  | 0, _ => none
  | fuel + 1, ctr =>
    let p := pjoin backup_dir (mk ctr)
    if existing.contains p then freshLoop existing backup_dir mk fuel (ctr + 1)
    else some p

/-- Full fresh-path computation: the uncounted name first, then the counter
loop. -/
def uniqueBackupPath (existing : List String) (backup_dir : String) (media sn en : Option String) (dest_filename ext : String) : Option String :=
  let p0 := pjoin backup_dir (backupName media sn en dest_filename none ext)
  if existing.contains p0 then
    freshLoop existing backup_dir (fun c => backupName media sn en dest_filename (some c) ext)
      (existing.length + 1) 1
  else some p0

/-- The extension sweep both functions run (line 143 resp. 243). -/
def backupExts : List String := [".jpg", ".jpeg", ".png"]

/-- One extension of backup_existing_assets (lines 256-310): back up an
existing destination asset to a fresh path, optionally delete the original. -/
def beaStep (dest_folder dest_filename backup_dir : String) (media sn en : Option String) (delete_original : Bool) (existing : List String) (ext : String) : Option (List FileOp × List String) :=
  let existing_file := pjoin dest_folder (dest_filename ++ ext)
  if existing.contains existing_file then
    match uniqueBackupPath existing backup_dir media sn en dest_filename ext with
    | some p =>
      if delete_original then
        some ([FileOp.copy2 existing_file p, FileOp.delete existing_file],
              (p :: existing).erase existing_file)
      else some ([FileOp.copy2 existing_file p], p :: existing)
    | none => none
  else some ([], existing)

/-- Extension sweep of backup_existing_assets. -/
def beaLoop (dest_folder dest_filename backup_dir : String) (media sn en : Option String) (delete_original : Bool) : List String → List String → Bool × List FileOp × List String
  | existing, [] => (true, [], existing)
  | existing, ext :: rest =>
    match beaStep dest_folder dest_filename backup_dir media sn en delete_original existing ext with
    | some pr =>
      let r := beaLoop dest_folder dest_filename backup_dir media sn en delete_original pr.2 rest
      (r.1, pr.1 ++ r.2.1, r.2.2)
    | none => (false, [], existing)

/-- file_operations.backup_existing_assets (lines 222-312).  The creation
of the backup directory itself is a directory operation outside the
file-path set this model threads. -/
def backup_existing_assets (existing : List String) (dest_folder dest_filename backup_dir : String) (media sn en : Option String) (delete_original : Bool) : Bool × List FileOp × List String :=
  beaLoop dest_folder dest_filename backup_dir media sn en delete_original existing backupExts

/-- One extension of handle_existing_files (lines 162-218): optional backup
to a fresh path, then unconditional delete of the original. -/
def hefStep (dest_folder dest_filename : String) (backup_dir : Option String) (enable_backup : Bool) (media sn en : Option String) (existing : List String) (ext : String) : Option (List FileOp × List String) :=
  let existing_file := pjoin dest_folder (dest_filename ++ ext)
  if existing.contains existing_file then
    if enable_backup then
      match backup_dir with
      | some bd =>
        match uniqueBackupPath existing bd media sn en dest_filename ext with
        | some p =>
          some ([FileOp.copy2 existing_file p, FileOp.delete existing_file],
                (p :: existing).erase existing_file)
        | none => none
      | none => none
    else some ([FileOp.delete existing_file], existing.erase existing_file)
  else some ([], existing)

/-- Extension sweep of handle_existing_files. -/
def hefLoop (dest_folder dest_filename : String) (backup_dir : Option String) (enable_backup : Bool) (media sn en : Option String) : List String → List String → Bool × List FileOp × List String
  | existing, [] => (true, [], existing)
  | existing, ext :: rest =>
    match hefStep dest_folder dest_filename backup_dir enable_backup media sn en existing ext with
    | some pr =>
      let r := hefLoop dest_folder dest_filename backup_dir enable_backup media sn en pr.2 rest
      (r.1, pr.1 ++ r.2.1, r.2.2)
    | none => (false, [], existing)

/-- file_operations.handle_existing_files (lines 123-220). -/
def handle_existing_files (existing : List String) (dest_folder dest_filename : String) (backup_dir : Option String) (enable_backup : Bool) (media sn en : Option String) : Bool × List FileOp × List String :=
  if enable_backup && backup_dir.isNone then (false, [], existing)
  else hefLoop dest_folder dest_filename backup_dir enable_backup media sn en existing backupExts

/-- Freshness check of a trace: no `copy2` destination coincides with a
path existing when the copy happens (`copy2` adds its destination, `delete`
removes its target). -/
def backupsFresh (existing : List String) : List FileOp → Bool
  | [] => true
  | FileOp.copy2 _ dest :: rest => !(existing.contains dest) && backupsFresh (dest :: existing) rest
  | FileOp.delete p :: rest => backupsFresh (existing.erase p) rest
  | _ :: rest => backupsFresh existing rest

/-- File-path set after a trace, under the same bookkeeping as
`backupsFresh`. -/
def backupState (existing : List String) : List FileOp → List String
  | [] => existing
  | FileOp.copy2 _ dest :: rest => backupState (dest :: existing) rest
  | FileOp.delete p :: rest => backupState (existing.erase p) rest
  | _ :: rest => backupState existing rest

/- ## Claim theorems -/

/-- Concrete filesystem for the C1 evaluation: the movies library holds one
directory that does not match the asset. -/
def fsC1 : FS := {
  listdir := fun d => if d == "/movies" then ["Other Film (1999)"] else [],
  pathExists := fun _ => false,
  imageSize := fun _ => none,
  copyFails := fun _ _ => false,
  renameFails := fun _ _ => false }

/-- C1: the claim says every per-file failure moves the file to the failed
directory with result "failed".  Evaluating the script-level
copy_and_rename on a movie asset with no matching movie directory shows the
code instead returns the success category "movie" and performs no file
operation at all: the file stays in the process directory and the caller
counts it as a movie success. -/
theorem c1_script_movie_no_match_eval :
    copy_and_rename fsC1 none "Movie (2020).jpg" "movie" none none
      "/movies" "/shows" "/collections" "/process" "/failed" none =
      (PyResult.ok "movie", []) := by decide

/-- Concrete filesystem for the C2 statements: one matching show directory. -/
def fsC2 : FS := {
  listdir := fun d => if d == "/shows" then ["Show (2020)"] else [],
  pathExists := fun _ => false,
  imageSize := fun _ => none,
  copyFails := fun _ _ => false,
  renameFails := fun _ _ => false }

/-- C2 counterexample: with service plex and plex_specials unset, the
script-level copy_and_rename terminates the whole program with sys.exit(1)
while processing a Specials season asset — a per-file error that is fatal,
contradicting the claim. -/
theorem c2_counterexample :
    copy_and_rename fsC2 none "Show (2020) Specials.jpg" "season" none none
      "/movies" "/shows" "/collections" "/process" "/failed" (some "plex") =
      (PyResult.exited 1, []) := by decide

/-- C3: the end-of-run summary generation crashes instead of succeeding:
the script passes `(moved_counts, backup_enabled, total_runtime, version)`
to a function whose parameters are `(moved_counts, compress_images,
image_quality, backup_enabled)`, so the version string is tuple-unpacked
and raises ValueError (evaluated here at version "1.0.0"). -/
theorem c3_summary_call_crashes :
    script_summary_call ⟨2, 1, 0, 3, 1, 4⟩ false "12.34" "1.0.0" =
      Except.error "ValueError" := by rfl

/-- Empty filesystem for the C4 counterexample. -/
def fsC4 : FS := {
  listdir := fun _ => [],
  pathExists := fun _ => false,
  imageSize := fun _ => none,
  copyFails := fun _ _ => false,
  renameFails := fun _ _ => false }

/-- C4 counterexample: for a season asset with service unset, categories()
returns the value "skip", which is neither one of the five categories nor
the absence of a category, contradicting the claim. -/
theorem c4_counterexample :
    (categories fsC4 "Show Season 1.jpg" (some "/movies") "/shows" none none
      "/process" "/failed").1 = CatOut.ok (some "skip") none none := by rfl

/-- C8 counterexample: the parser defines only --version, so --debug is not
accepted: argparse reports an unrecognized argument and exits with status 2. -/
theorem c8_counterexample :
    parse_args ["--debug"] = ParseOutcome.usageExit := by rfl

/-- C8 (amended): the command line accepts --version, under which the
script prints the banner and exits with status 0 before any configuration
is loaded; --debug is rejected with an argparse usage error (exit status
2). -/
theorem c8_amended :
    parse_args ["--version"] = ParseOutcome.parsed true ∧
    main_startup ["--version"] = StartupOutcome.exited 0 false ∧
    main_startup ["--debug"] = StartupOutcome.exited 2 false :=
  ⟨rfl, rfl, rfl⟩

/-- C9: the file-operation helpers never let an exception out: for every
outcome of the underlying OS call, move_to_failed and backup_file return
normally, copy_file / rename_file / delete_file return normally, and the
three boolean helpers return True exactly when the OS call succeeded. -/
theorem c9_file_ops_total (r : OSResult) :
    move_to_failed r = Except.ok () ∧
    backup_file r = Except.ok () ∧
    exceptOk (copy_file r) = true ∧
    exceptOk (rename_file r) = true ∧
    exceptOk (delete_file r) = true ∧
    (copy_file r = Except.ok true ↔ r = OSResult.success) ∧
    (rename_file r = Except.ok true ↔ r = OSResult.success) ∧
    (delete_file r = Except.ok true ↔ r = OSResult.success) := by
  cases r <;>
    simp [move_to_failed, backup_file, copy_file, rename_file, delete_file, osRun, exceptOk]

set_option maxHeartbeats 4000000

/-- Helper for C4: the category computed by the core of categories() is
always one of movie / season / episode / collection / skip / not_supported
or none (in particular, the script never classifies anything as "show"). -/
theorem categoriesCore_category_mem (fs : FS) (filename : String) (movies_dir : Option String)
    (shows_dir : String) (collections_dir : Option String) (service : Option String) :
    (categoriesCore fs filename movies_dir shows_dir collections_dir service).1 ∈
      ([none, some "movie", some "season", some "episode", some "collection",
        some "skip", some "not_supported"] : List (Option String)) := by
  unfold categoriesCore
  dsimp only
  repeat' split
  all_goals (try dsimp only)
  all_goals (try (repeat' split))
  all_goals simp

/-- C4 (amended): match_media always returns a category among the five
values or None; the script-level categories(), when it returns normally,
returns one of the five values, None, or one of the two sentinel values
"skip" and "not_supported", which its caller treats as failures and never
counts as successes. -/
theorem c4_amended :
    (∀ (fs : FS) (movies_dir shows_dir collections_dir : Option String) (filename : String),
      (match_media fs movies_dir shows_dir collections_dir filename).category ∈
        ([none, some "movie", some "show", some "season", some "episode", some "collection"] :
          List (Option String))) ∧
    (∀ (fs : FS) (filename : String) (movies_dir : Option String) (shows_dir : String)
        (collections_dir : Option String) (service : Option String) (process_dir failed_dir : String)
        (cat sn en : Option String),
      (categories fs filename movies_dir shows_dir collections_dir service process_dir failed_dir).1 =
        CatOut.ok cat sn en →
      cat ∈ ([none, some "movie", some "show", some "season", some "episode", some "collection",
              some "skip", some "not_supported"] : List (Option String))) := by
  constructor
  · intro fs movies_dir shows_dir collections_dir filename
    unfold match_media
    dsimp only
    repeat' split
    all_goals (try dsimp only)
    all_goals (try (repeat' split))
    all_goals simp
  · intro fs filename movies_dir shows_dir collections_dir service process_dir failed_dir cat sn en h
    have hcore := categoriesCore_category_mem fs filename movies_dir shows_dir collections_dir service
    unfold categories at h
    dsimp only at h
    split at h
    case isTrue hguard =>
      dsimp only at h
      injection h with h1 h2 h3
      subst h1
      simp only [Bool.or_eq_true, beq_iff_eq] at hguard
      rcases hguard with (((h1 | h1) | h1) | h1) | h1 <;> simp [h1]
    case isFalse =>
      split at h
      · dsimp only at h
        exact (CatOut.noConfusion h)
      · dsimp only at h
        injection h with h1 h2 h3
        subst h1
        simp only [List.mem_cons, List.mem_singleton] at hcore ⊢
        tauto

/-- Witness for C4 (amended): at a concrete input the hypothesis holds —
categories() returns normally with the value "skip" — and the amended
membership follows by applying the theorem there. -/
theorem c4_amended_witness :
    (categories fsC4 "Show Season 1.jpg" (some "/movies") "/shows" none none "/process" "/failed").1 =
      CatOut.ok (some "skip") none none ∧
    (some "skip") ∈ ([none, some "movie", some "show", some "season", some "episode",
      some "collection", some "skip", some "not_supported"] : List (Option String)) :=
  ⟨by decide,
   c4_amended.2 fsC4 "Show Season 1.jpg" (some "/movies") "/shows" none none
     "/process" "/failed" (some "skip") none none (by decide)⟩

/-- C2 (amended): an unset plex_specials during per-file processing is
non-fatal in the AssetProcessor module — _process_plex_season and
_process_plex_episode log, return "failed" and let the run continue — but
the script-level copy_and_rename terminates the program with sys.exit(1)
under the same condition (a Specials season poster, or an episode of season
00, with service plex). -/
theorem c2_amended (fs : FS) (sd pd fd mv cd filename sn0 en0 dirName : String)
    (hdir : (fs.listdir sd).find? (seasonShowDirHit filename) = some dirName)
    (hspec : pyIn "Specials" filename = true)
    (hbest : find_best_show_directory fs (some sd) filename = some dirName)
    (hzf : zfill 2 sn0 = "00") :
    process_plex_season fs (some sd) pd fd none filename none = (PyResult.ok "failed", []) ∧
    process_plex_episode fs (some sd) pd fd none filename sn0 en0 = (PyResult.ok "failed", []) ∧
    copy_and_rename fs none filename "season" none none mv sd cd pd fd (some "plex") =
      (PyResult.exited 1, []) := by
  refine ⟨?_, ?_, ?_⟩
  · unfold process_plex_season
    dsimp only
    rw [hdir]
    simp [hspec]
  · unfold process_plex_episode
    dsimp only
    rw [hbest, hzf]
    simp [plexSeasonDirName]
  · unfold copy_and_rename
    dsimp only
    rw [hdir]
    simp [hspec]

/-- Witness for C2 (amended): the hypotheses hold at the concrete
filesystem of the counterexample, and applying the theorem there yields the
three concrete behaviours. -/
theorem c2_amended_witness :
    process_plex_season fsC2 (some "/shows") "/process" "/failed" none
      "Show (2020) Specials.jpg" none = (PyResult.ok "failed", []) ∧
    process_plex_episode fsC2 (some "/shows") "/process" "/failed" none
      "Show (2020) Specials.jpg" "0" "7" = (PyResult.ok "failed", []) ∧
    copy_and_rename fsC2 none "Show (2020) Specials.jpg" "season" none none
      "/movies" "/shows" "/collections" "/process" "/failed" (some "plex") =
      (PyResult.exited 1, []) :=
  c2_amended fsC2 "/shows" "/process" "/failed" "/movies" "/collections"
    "Show (2020) Specials.jpg" "0" "7" "Show (2020)"
    (by decide) (by decide) (by decide) (by decide)

/-- C5: for service plex, an episode asset whose show directory was matched
is placed into the existing season directory named by
`plexSeasonDirName` ("Season NN", or "Specials"/"Season 00" for season 00
as plex_specials selects) and renamed to the base name of the season
directory video file whose SxxEyy numbers equal the zero-filled asset
numbers; when the season directory does not exist, or no such video file is
found, the asset is moved to the failed directory and the result is
"failed". -/
theorem c5_plex_episode (fs : FS) (sd pd fd filename sn0 en0 : String) (ps : Option Bool)
    (best sdn : String)
    (hbest : find_best_show_directory fs (some sd) filename = some best)
    (hsdn : plexSeasonDirName ps (zfill 2 sn0) = some sdn) :
    (∀ v,
      fs.pathExists (pjoin (pjoin sd best) sdn) = true →
      findEpisodeVideo (zfill 2 sn0) (zfill 2 en0) (fs.listdir (pjoin (pjoin sd best) sdn)) = some v →
      fs.copyFails (pjoin pd filename) (pjoin (pjoin (pjoin sd best) sdn) filename) = false →
      fs.renameFails (pjoin (pjoin (pjoin sd best) sdn) filename)
        (pjoin (pjoin (pjoin sd best) sdn) ((splitExt v).1 ++ (splitExt filename).2)) = false →
      process_plex_episode fs (some sd) pd fd ps filename sn0 en0 =
        (PyResult.ok "episode",
         [FileOp.copyTo (pjoin pd filename) (pjoin (pjoin sd best) sdn) filename,
          FileOp.renameTo (pjoin (pjoin (pjoin sd best) sdn) filename) (pjoin (pjoin sd best) sdn)
            ((splitExt v).1 ++ (splitExt filename).2)])) ∧
    (fs.pathExists (pjoin (pjoin sd best) sdn) = false →
      process_plex_episode fs (some sd) pd fd ps filename sn0 en0 =
        (PyResult.ok "failed", [moveToFailedOp pd fd filename])) ∧
    (fs.pathExists (pjoin (pjoin sd best) sdn) = true →
      findEpisodeVideo (zfill 2 sn0) (zfill 2 en0) (fs.listdir (pjoin (pjoin sd best) sdn)) = none →
      process_plex_episode fs (some sd) pd fd ps filename sn0 en0 =
        (PyResult.ok "failed", [moveToFailedOp pd fd filename])) := by
  refine ⟨?_, ?_, ?_⟩
  · intro v hex hvid hcf hrf
    unfold process_plex_episode
    dsimp only
    rw [hbest, hsdn]
    simp [hex, hvid, hcf, hrf]
  · intro hex
    unfold process_plex_episode
    dsimp only
    rw [hbest, hsdn]
    simp [hex]
  · intro hex hvid
    unfold process_plex_episode
    dsimp only
    rw [hbest, hsdn]
    simp [hex, hvid]

/-- Concrete filesystem for the C5 witness, success scenario. -/
def fsC5a : FS := {
  listdir := fun d =>
    if d == "/shows" then ["Breaking Bad (2008)"]
    else if d == "/shows/Breaking Bad (2008)/Season 01" then ["Breaking Bad S01E01 Pilot.mkv"]
    else [],
  pathExists := fun p => p == "/shows/Breaking Bad (2008)/Season 01",
  imageSize := fun _ => none,
  copyFails := fun _ _ => false,
  renameFails := fun _ _ => false }

/-- Concrete filesystem for the C5 witness, missing-season and no-video
scenarios (the Season 02 directory exists but holds no matching video). -/
def fsC5b : FS := {
  listdir := fun d => if d == "/shows" then ["Breaking Bad (2008)"] else [],
  pathExists := fun p => p == "/shows/Breaking Bad (2008)/Season 02",
  imageSize := fun _ => none,
  copyFails := fun _ _ => false,
  renameFails := fun _ _ => false }

/-- Witness for C5: the three conjuncts applied at concrete inputs — a
successful placement with the video-derived rename, a missing season
directory, and a season directory without a matching video file. -/
theorem c5_plex_episode_witness :
    process_plex_episode fsC5a (some "/shows") "/process" "/failed" (some true)
      "Breaking Bad S01E01.jpg" "1" "1" =
      (PyResult.ok "episode",
       [FileOp.copyTo (pjoin "/process" "Breaking Bad S01E01.jpg")
          (pjoin (pjoin "/shows" "Breaking Bad (2008)") "Season 01") "Breaking Bad S01E01.jpg",
        FileOp.renameTo
          (pjoin (pjoin (pjoin "/shows" "Breaking Bad (2008)") "Season 01") "Breaking Bad S01E01.jpg")
          (pjoin (pjoin "/shows" "Breaking Bad (2008)") "Season 01")
          ((splitExt "Breaking Bad S01E01 Pilot.mkv").1 ++ (splitExt "Breaking Bad S01E01.jpg").2)]) ∧
    process_plex_episode fsC5b (some "/shows") "/process" "/failed" (some true)
      "Breaking Bad S03E01.jpg" "3" "1" =
      (PyResult.ok "failed", [moveToFailedOp "/process" "/failed" "Breaking Bad S03E01.jpg"]) ∧
    process_plex_episode fsC5b (some "/shows") "/process" "/failed" (some true)
      "Breaking Bad S02E01.jpg" "2" "1" =
      (PyResult.ok "failed", [moveToFailedOp "/process" "/failed" "Breaking Bad S02E01.jpg"]) :=
  ⟨(c5_plex_episode fsC5a "/shows" "/process" "/failed" "Breaking Bad S01E01.jpg" "1" "1"
      (some true) "Breaking Bad (2008)" "Season 01" (by decide) (by decide)).1
      "Breaking Bad S01E01 Pilot.mkv" (by decide) (by decide) (by decide) (by decide),
   (c5_plex_episode fsC5b "/shows" "/process" "/failed" "Breaking Bad S03E01.jpg" "3" "1"
      (some true) "Breaking Bad (2008)" "Season 03" (by decide) (by decide)).2.1 (by decide),
   (c5_plex_episode fsC5b "/shows" "/process" "/failed" "Breaking Bad S02E01.jpg" "2" "1"
      (some true) "Breaking Bad (2008)" "Season 02" (by decide) (by decide)).2.2 (by decide) (by decide)⟩

/-- Helper for C6: the snapshot the loop iterates is exactly the listing
filtered to regular files with a supported image extension, in listing
order. -/
theorem buildSnapshot_fst (pd fd : String) (isFile : String → Bool) (l : List String) :
    (buildSnapshot pd fd isFile l).1 = l.filter (fun f => isFile f && supportedImageExt f) := by
  induction l with
  | nil => rfl
  | cons f rest ih =>
    by_cases h1 : (isFile f && supportedImageExt f) = true
    · simp [buildSnapshot, h1, List.filter_cons, ih]
    · by_cases h2 : isFile f = true <;>
        simp [buildSnapshot, h1, h2, List.filter_cons, ih] <;>
        split <;> simp

/-- C6: the run is a single pass over a snapshot taken once: the visit
order of the processing loop is a subsequence of the one directory listing
(so files are visited in listing order), it is duplicate-free whenever the
listing is, every listed image file is visited exactly as often as it is
listed, and no file is visited twice. -/
theorem c6_single_pass (pd fd : String) (isFile : String → Bool) (listing : List String)
    (hnd : listing.Nodup) :
    List.Sublist (processingVisits pd fd isFile listing) listing ∧
    (processingVisits pd fd isFile listing).Nodup ∧
    (∀ f, isFile f = true → supportedImageExt f = true →
      (processingVisits pd fd isFile listing).count f = listing.count f) ∧
    (∀ f, (processingVisits pd fd isFile listing).count f ≤ 1) := by
  unfold processingVisits
  rw [buildSnapshot_fst]
  refine ⟨List.filter_sublist _, hnd.filter _, ?_, ?_⟩
  · intro f hf hext
    rw [List.count_filter]
    simp [hf, hext]
  · intro f
    exact List.nodup_iff_count_le_one.mp (hnd.filter _) f

/-- Witness for C6: the theorem applied to a concrete three-entry listing. -/
theorem c6_single_pass_witness :
    List.Sublist (processingVisits "/process" "/failed" (fun _ => true)
      ["a.jpg", "b.txt", "c.png"]) ["a.jpg", "b.txt", "c.png"] ∧
    (processingVisits "/process" "/failed" (fun _ => true) ["a.jpg", "b.txt", "c.png"]).Nodup ∧
    (∀ f, (fun (_ : String) => true) f = true → supportedImageExt f = true →
      (processingVisits "/process" "/failed" (fun _ => true) ["a.jpg", "b.txt", "c.png"]).count f =
        (["a.jpg", "b.txt", "c.png"] : List String).count f) ∧
    (∀ f, (processingVisits "/process" "/failed" (fun _ => true)
      ["a.jpg", "b.txt", "c.png"]).count f ≤ 1) :=
  c6_single_pass "/process" "/failed" (fun _ => true) ["a.jpg", "b.txt", "c.png"] (by decide)

/-- Helper for C10: a path produced by the counter loop never exists
already. -/
theorem freshLoop_not_exists (existing : List String) (bd : String) (mk : Nat → String)
    (fuel : Nat) : ∀ (c : Nat) (p : String), freshLoop existing bd mk fuel c = some p →
    existing.contains p = false := by
  induction fuel with
  | zero => intro c p h; simp [freshLoop] at h
  | succ n ih =>
    intro c p h
    unfold freshLoop at h
    dsimp only at h
    split at h
    · exact ih _ _ h
    · rename_i hc
      injection h with h
      subst h
      simpa using hc

/-- Helper for C10: the chosen backup path never exists already. -/
theorem uniqueBackupPath_not_exists (existing : List String) (bd : String)
    (media sn en : Option String) (dfn ext p : String)
    (h : uniqueBackupPath existing bd media sn en dfn ext = some p) :
    existing.contains p = false := by
  unfold uniqueBackupPath at h
  dsimp only at h
  split at h
  · exact freshLoop_not_exists _ _ _ _ _ _ h
  · rename_i hc
    injection h with h
    subst h
    simpa using hc

/-- Helper for C10: freshness checking splits over trace concatenation via
the threaded state. -/
theorem backupsFresh_append (a b : List FileOp) : ∀ ex,
    backupsFresh ex (a ++ b) = (backupsFresh ex a && backupsFresh (backupState ex a) b) := by
  induction a with
  | nil => intro ex; simp [backupsFresh, backupState]
  | cons op rest ih =>
    intro ex
    cases op <;> simp [backupsFresh, backupState, ih, Bool.and_assoc]

/-- Helper for C10: one extension step of backup_existing_assets writes
only to a fresh path and reports the correct follow-up state. -/
theorem beaStep_fresh (df dfn bd : String) (media sn en : Option String) (del : Bool)
    (existing : List String) (ext : String) (pr : List FileOp × List String)
    (h : beaStep df dfn bd media sn en del existing ext = some pr) :
    backupsFresh existing pr.1 = true ∧ backupState existing pr.1 = pr.2 := by
  unfold beaStep at h
  dsimp only at h
  split at h
  · split at h
    · rename_i p hp
      split at h <;>
      · injection h with h
        subst h
        have hmem : p ∉ existing := by
          simpa using uniqueBackupPath_not_exists _ _ _ _ _ _ _ _ hp
        simp [backupsFresh, backupState, hmem]
    · exact absurd h (by simp)
  · injection h with h
    subst h
    simp [backupsFresh, backupState]

/-- Helper for C10: the extension sweep of backup_existing_assets only
writes to fresh paths. -/
theorem beaLoop_fresh (df dfn bd : String) (media sn en : Option String) (del : Bool)
    (exts : List String) : ∀ existing,
    backupsFresh existing (beaLoop df dfn bd media sn en del existing exts).2.1 = true := by
  induction exts with
  | nil => intro existing; rfl
  | cons e rest ih =>
    intro existing
    unfold beaLoop
    cases hstep : beaStep df dfn bd media sn en del existing e with
    | none => rfl
    | some pr =>
      dsimp only
      have ⟨h1, h2⟩ := beaStep_fresh df dfn bd media sn en del existing e pr hstep
      rw [backupsFresh_append, h1, h2]
      simpa using ih pr.2

/-- Helper for C10: one extension step of handle_existing_files writes only
to a fresh path and reports the correct follow-up state. -/
theorem hefStep_fresh (df dfn : String) (bd : Option String) (eb : Bool)
    (media sn en : Option String) (existing : List String) (ext : String)
    (pr : List FileOp × List String)
    (h : hefStep df dfn bd eb media sn en existing ext = some pr) :
    backupsFresh existing pr.1 = true ∧ backupState existing pr.1 = pr.2 := by
  unfold hefStep at h
  dsimp only at h
  split at h
  · split at h
    · split at h
      · split at h
        · rename_i p hp
          injection h with h
          subst h
          have hmem : p ∉ existing := by
            simpa using uniqueBackupPath_not_exists _ _ _ _ _ _ _ _ hp
          simp [backupsFresh, backupState, hmem]
        · exact absurd h (by simp)
      · exact absurd h (by simp)
    · injection h with h
      subst h
      simp [backupsFresh, backupState]
  · injection h with h
    subst h
    simp [backupsFresh, backupState]

/-- Helper for C10: the extension sweep of handle_existing_files only
writes to fresh paths. -/
theorem hefLoop_fresh (df dfn : String) (bd : Option String) (eb : Bool)
    (media sn en : Option String) (exts : List String) : ∀ existing,
    backupsFresh existing (hefLoop df dfn bd eb media sn en existing exts).2.1 = true := by
  induction exts with
  | nil => intro existing; rfl
  | cons e rest ih =>
    intro existing
    unfold hefLoop
    cases hstep : hefStep df dfn bd eb media sn en existing e with
    | none => rfl
    | some pr =>
      dsimp only
      have ⟨h1, h2⟩ := hefStep_fresh df dfn bd eb media sn en existing e pr hstep
      rw [backupsFresh_append, h1, h2]
      simpa using ih pr.2

/-- C10: every backup write of handle_existing_files and
backup_existing_assets goes to a path that does not already exist in the
filesystem at the moment of the write (the counter loop guarantees a fresh
name), so no previously created backup file is ever overwritten. -/
theorem c10_backup_fresh (existing : List String) (dest_folder dest_filename backup_dir : String)
    (bd : Option String) (media sn en : Option String) (delete_original enable_backup : Bool) :
    backupsFresh existing (backup_existing_assets existing dest_folder dest_filename backup_dir
      media sn en delete_original).2.1 = true ∧
    backupsFresh existing (handle_existing_files existing dest_folder dest_filename bd
      enable_backup media sn en).2.1 = true := by
  constructor
  · exact beaLoop_fresh dest_folder dest_filename backup_dir media sn en delete_original
      backupExts existing
  · unfold handle_existing_files
    split
    · rfl
    · exact hefLoop_fresh dest_folder dest_filename bd enable_backup media sn en
        backupExts existing


/-- Helper for C7: the head of a list is a member. -/
theorem mem_of_headOpt (l : List String) (b : String) (h : l.head? = some b) : b ∈ l := by
  cases l with
  | nil => simp at h
  | cons a rest =>
    simp [List.head?] at h
    subst h
    exact List.mem_cons_self a rest

/-- Helper for C7: the kometa episode pick comes from its candidate list. -/
theorem kometaEpisodeBest_mem (l : List String) (h : l.isEmpty = false) :
    kometaEpisodeBest l ∈ l := by
  unfold kometaEpisodeBest
  split
  · split
    · rename_i m hm
      exact List.mem_of_find?_eq_some hm
    · cases l with
      | nil => simp at h
      | cons a rest => simp [List.headD]
  · cases l with
    | nil => simp at h
    | cons a rest => simp [List.headD]

/-- Helper for C7: the plex episode show directory comes from the listing. -/
theorem plexEpisodeBest_mem (listing : List String) (fsn b : String)
    (h : plexEpisodeBest listing fsn = some b) : b ∈ listing := by
  unfold plexEpisodeBest at h
  dsimp only at h
  split at h
  · split at h
    · rename_i m hm
      injection h with h
      subst h
      exact List.mem_of_mem_filter (List.mem_of_find?_eq_some hm)
    · exact List.mem_of_mem_filter (mem_of_headOpt _ _ h)
  · split at h
    · rename_i m hm
      injection h with h
      subst h
      exact List.mem_of_mem_filter (List.mem_of_find?_eq_some hm)
    · exact List.mem_of_mem_filter (mem_of_headOpt _ _ h)

/-- Helper for C7: the movie/show best match comes from the library listing. -/
theorem crMovieShowBestMatch_mem (fs : FS) (directory filename b : String)
    (h : crMovieShowBestMatch fs directory filename = some b) : b ∈ fs.listdir directory := by
  unfold crMovieShowBestMatch at h
  split at h
  all_goals (dsimp only at h; split at h)
  all_goals first
    | (rename_i hm
       injection h with h
       subst h
       exact List.mem_of_find?_eq_some hm)
    | exact List.mem_of_find?_eq_some h

/-- Helper for C7: every copy of the collection loop lands in a listed
(and hence existing) collection directory. -/
theorem crCollectionLoop_parents (fs : FS) (src cd filename fb : String) :
    ∀ (dirs : List String), (∀ d ∈ dirs, fs.pathExists (pjoin cd d) = true) →
    copyParentsOk fs.pathExists (crCollectionLoop fs src cd filename fb dirs).2.1 = true := by
  intro dirs
  induction dirs with
  | nil => intro; rfl
  | cons d rest ih =>
    intro hall
    have hd := hall d (List.mem_cons_self d rest)
    have hrest : ∀ x ∈ rest, fs.pathExists (pjoin cd x) = true := by
      intro x hx; exact hall x (List.mem_cons_of_mem d hx)
    unfold crCollectionLoop
    dsimp only
    repeat' split
    all_goals try rfl
    all_goals try exact ih hrest
    all_goals (try dsimp only)
    all_goals simp only [List.singleton_append, copyParentsOk, hd, Bool.true_and]
    all_goals first
      | rfl
      | exact ih hrest
      | simp [hd]

/-- Helper for C7: a trailing move does not affect the copy-parent check. -/
theorem copyParentsOk_append_move (ex : String → Bool) (a b c : String) : ∀ ops,
    copyParentsOk ex (ops ++ [FileOp.moveTo a b c]) = copyParentsOk ex ops := by
  intro ops
  induction ops generalizing ex with
  | nil => rfl
  | cons op rest ih =>
    cases op <;> simp [copyParentsOk, ih]

/-- Helper for C7: the plex season body of copy_and_rename copies only into
the season directory it just checked or created. -/
theorem crPlexSeasonBody_parents (fs : FS) (src show_dir filename : String)
    (snum : Option String) (sdn : String) :
    copyParentsOk fs.pathExists (crPlexSeasonBody fs src show_dir filename snum sdn).2 = true := by
  unfold crPlexSeasonBody
  dsimp only
  repeat' split
  all_goals simp_all [copyParentsOk]

/-- Helper for C7: the plex episode body of copy_and_rename copies only
into the season directory whose existence it verified. -/
theorem crPlexEpisodeBody_parents (fs : FS) (src show_dir filename sn en sdn pd fd : String) :
    copyParentsOk fs.pathExists (crPlexEpisodeBody fs src show_dir filename sn en sdn pd fd).2 = true := by
  unfold crPlexEpisodeBody
  dsimp only
  repeat' split
  all_goals simp_all [copyParentsOk]

/-- Helper for C7: the AssetProcessor plex season body copies only into the
season directory it just checked or created. -/
theorem appPlexSeasonBody_parents (fs : FS) (pd fd show_dir filename : String)
    (snum : Option String) (sdn : String) :
    copyParentsOk fs.pathExists (appPlexSeasonBody fs pd fd show_dir filename snum sdn).2 = true := by
  unfold appPlexSeasonBody
  dsimp only
  repeat' split
  all_goals simp_all [copyParentsOk]

/-- Helper for C7: every copy of AssetProcessor._process_plex_season has an
existing or freshly created parent directory. -/
theorem process_plex_season_parents (fs : FS) (sdopt : Option String) (pd fd : String)
    (ps : Option Bool) (filename : String) (snum : Option String) :
    copyParentsOk fs.pathExists (process_plex_season fs sdopt pd fd ps filename snum).2 = true := by
  unfold process_plex_season
  repeat' split
  all_goals first
    | rfl
    | exact appPlexSeasonBody_parents _ _ _ _ _ _ _
    | simp [copyParentsOk]

/-- Helper for C7: under listings that reflect existing directories, every
copy performed by the script-level copy_and_rename has a parent directory
that exists or was created by an earlier mkdir of the same run. -/
theorem copy_and_rename_parents (fs : FS) (ps : Option Bool) (filename category : String)
    (sn en : Option String) (mv sd cd pd fd : String) (service : Option String)
    (hmv : ∀ n ∈ fs.listdir mv, fs.pathExists (pjoin mv n) = true)
    (hsd : ∀ n ∈ fs.listdir sd, fs.pathExists (pjoin sd n) = true)
    (hcd : ∀ n ∈ fs.listdir cd, fs.pathExists (pjoin cd n) = true) :
    copyParentsOk fs.pathExists
      (copy_and_rename fs ps filename category sn en mv sd cd pd fd service).2 = true := by
  unfold copy_and_rename
  dsimp only
  split
  · -- movie / show branch
    cases hbm : crMovieShowBestMatch fs (if (category == "movie") = true then mv else sd) filename with
    | none => simp [copyParentsOk]
    | some b =>
      have hb := crMovieShowBestMatch_mem fs _ filename b hbm
      have hex : fs.pathExists (pjoin (if (category == "movie") = true then mv else sd) b) = true := by
        by_cases hc : (category == "movie") = true
        · rw [if_pos hc] at hb ⊢
          exact hmv b hb
        · rw [if_neg hc] at hb ⊢
          exact hsd b hb
      dsimp only
      repeat' split
      all_goals first
        | rfl
        | simp_all [copyParentsOk]
  · split
    · -- collection branch
      have hloop := crCollectionLoop_parents fs (pjoin pd filename) cd filename
        (takeUntilChar '.' filename) (fs.listdir cd) hcd
      rcases hcc : crCollectionLoop fs (pjoin pd filename) cd filename
          (takeUntilChar '.' filename) (fs.listdir cd) with ⟨m, ops, exc⟩
      rw [hcc] at hloop
      dsimp only at hloop
      cases exc with
      | some e => simp [hloop]
      | none =>
        cases m with
        | true => simp [hloop]
        | false => simp [moveToFailedOp, copyParentsOk_append_move, hloop]
    · split
      · -- kometa branch
        split
        · -- season
          cases hf : (fs.listdir sd).find? (seasonShowDirHit filename) with
          | none => simp [copyParentsOk]
          | some dir_name =>
            have hex := hsd dir_name (List.mem_of_find?_eq_some hf)
            dsimp only
            repeat' split
            all_goals first
              | rfl
              | simp [copyParentsOk, hex]
        · split
          · -- episode
            split
            · rfl
            · try dsimp only
              split
              · rfl
              · rename_i g hg hne
                have hb : kometaEpisodeBest ((fs.listdir sd).filter (fun d =>
                    let dsn := pyLower (pyStrip (takeUntilChar '(' d))
                    pyIn (pyLower (pyStrip g)) dsn || pyIn dsn (pyLower (pyStrip g)))) ∈
                    (fs.listdir sd).filter (fun d =>
                    let dsn := pyLower (pyStrip (takeUntilChar '(' d))
                    pyIn (pyLower (pyStrip g)) dsn || pyIn dsn (pyLower (pyStrip g))) := by
                  apply kometaEpisodeBest_mem
                  simpa using hne
                have hex := hsd _ (List.mem_of_mem_filter hb)
                try dsimp only
                repeat' split
                all_goals first
                  | rfl
                  | simp [copyParentsOk, hex]
          · rfl
      · split
        · -- plex branch
          split
          · -- season
            split
            · rfl
            · try dsimp only
              repeat' split
              all_goals first
                | rfl
                | exact crPlexSeasonBody_parents _ _ _ _ _ _
          · split
            · -- episode
              split
              · rfl
              · try dsimp only
                repeat' split
                all_goals first
                  | rfl
                  | exact crPlexEpisodeBody_parents _ _ _ _ _ _ _ _ _
            · rfl
        · simp [copyParentsOk]

/-- Directory `d` is guaranteed after the startup block: it existed, or a
mkdir for it was issued. -/
def dirEnsured (fs : FS) (ops : List FileOp) (d : String) : Prop :=
  fs.pathExists d = true ∨ FileOp.mkdir d ∈ ops

/-- C7: before every copy performed during processing the destination
parent exists: given directory listings that name existing entries, every
copy of the script-level copy_and_rename and of
AssetProcessor._process_plex_season targets a directory that exists or was
created by a preceding makedirs of the same call, and the startup block
guarantees the failed directory (and, when backup is enabled, the backup
directory). -/
theorem c7_copy_parent_exists (fs : FS) (ps : Option Bool) (filename category : String)
    (sn en snum : Option String) (mv sd cd pd fd bd : String) (service : Option String)
    (backup_enabled : Bool)
    (hmv : ∀ n ∈ fs.listdir mv, fs.pathExists (pjoin mv n) = true)
    (hsd : ∀ n ∈ fs.listdir sd, fs.pathExists (pjoin sd n) = true)
    (hcd : ∀ n ∈ fs.listdir cd, fs.pathExists (pjoin cd n) = true) :
    copyParentsOk fs.pathExists
      (copy_and_rename fs ps filename category sn en mv sd cd pd fd service).2 = true ∧
    copyParentsOk fs.pathExists
      (process_plex_season fs (some sd) pd fd ps filename snum).2 = true ∧
    dirEnsured fs (startup_dirs fs fd bd backup_enabled) fd ∧
    (backup_enabled = true → dirEnsured fs (startup_dirs fs fd bd backup_enabled) bd) := by
  refine ⟨copy_and_rename_parents fs ps filename category sn en mv sd cd pd fd service hmv hsd hcd,
    process_plex_season_parents fs (some sd) pd fd ps filename snum, ?_, ?_⟩
  · unfold dirEnsured startup_dirs
    by_cases h : fs.pathExists fd = true
    · exact Or.inl h
    · right
      simp [h]
  · intro hb
    unfold dirEnsured startup_dirs
    by_cases h : fs.pathExists bd = true
    · exact Or.inl h
    · right
      simp [h, hb]

/-- Concrete filesystem for the C7 witness. -/
def fsC7 : FS := {
  listdir := fun d =>
    if d == "/movies" then ["Movie (2020)"]
    else if d == "/shows" then ["Show (2020)"]
    else [],
  pathExists := fun p => p == "/movies/Movie (2020)" || p == "/shows/Show (2020)",
  imageSize := fun _ => some (2, 3),
  copyFails := fun _ _ => false,
  renameFails := fun _ _ => false }

/-- Witness for C7: the theorem applied at a concrete filesystem whose
listings name existing directories. -/
theorem c7_copy_parent_exists_witness :
    copyParentsOk fsC7.pathExists
      (copy_and_rename fsC7 (some true) "Movie (2020).jpg" "movie" none none
        "/movies" "/shows" "/collections" "/process" "/failed" none).2 = true ∧
    copyParentsOk fsC7.pathExists
      (process_plex_season fsC7 (some "/shows") "/process" "/failed" (some true)
        "Show (2020) Season 2.jpg" (some "2")).2 = true ∧
    dirEnsured fsC7 (startup_dirs fsC7 "/failed" "/backup" true) "/failed" ∧
    dirEnsured fsC7 (startup_dirs fsC7 "/failed" "/backup" true) "/backup" :=
  ⟨(c7_copy_parent_exists fsC7 (some true) "Movie (2020).jpg" "movie" none none (some "2")
      "/movies" "/shows" "/collections" "/process" "/failed" "/backup" none true
      (by decide) (by decide) (by decide)).1,
   (c7_copy_parent_exists fsC7 (some true) "Show (2020) Season 2.jpg" "movie" none none (some "2")
      "/movies" "/shows" "/collections" "/process" "/failed" "/backup" none true
      (by decide) (by decide) (by decide)).2.1,
   (c7_copy_parent_exists fsC7 (some true) "Movie (2020).jpg" "movie" none none (some "2")
      "/movies" "/shows" "/collections" "/process" "/failed" "/backup" none true
      (by decide) (by decide) (by decide)).2.2.1,
   (c7_copy_parent_exists fsC7 (some true) "Movie (2020).jpg" "movie" none none (some "2")
      "/movies" "/shows" "/collections" "/process" "/failed" "/backup" none true
      (by decide) (by decide) (by decide)).2.2.2 rfl⟩
